import Mathlib

/-!
Boot and crash diagnostics of OVMS v3 (`main/ovms_boot.cpp`).

A shallow embedding of the boot classifier (`Boot::Boot`), the stable marker
(`Boot::SetStable`), the crash capture routine (`Boot::ErrorCallback`), the
shutdown coordinator (`Boot::Restart`, `Boot::RestartPending`,
`Boot::RestartReady`, `Boot::Ticker1`, `Boot::IsShuttingDown` and the two
completion callbacks) and the reporters (`Boot::NotifyDebugCrash`, the crash
line of `boot_status`, and the backtrace reader loop they share).

Machine integers are natural numbers; every C operation that can wrap is
written with an explicit `% 2 ^ 32`.
-/

set_option linter.dupNamespace false

namespace OvmsBoot

/-! ## Data model -/

/-- Raw hardware reset cause of one core (`RESET_REASON` of the ROM headers),
kept as its numeric code, the way the reporters print it with `%d`. -/
abbrev RESET_REASON := Nat

/-- The ROM code of a power-on reset (`POWERON_RESET` in `rom/rtc.h`). No proof
below depends on the numeric value. -/
def POWERON_RESET : RESET_REASON := 1

/-- The boot reason tag `m_bootreason`; the order is that of `bootreason_name`. -/
inductive bootreason_t where
  | BR_PowerOn
  | BR_SoftReset
  | BR_FirmwareUpdate
  | BR_EarlyCrash
  | BR_Crash
deriving DecidableEq, Repr

/-- The crash snapshot `boot_data.crash_data`: `reg` is the array of 24 saved
registers, `bt` the array of `OVMS_BT_LEVELS` backtrace entries (`bt[i].pc`). -/
structure crash_data_t where
  core_id : Nat
  is_abort : Bool
  reg : List Nat
  bt : List Nat
deriving DecidableEq, Repr

/-- The reset-persistent store `boot_data` (section `.rtc.noload`). The three
counters are 32-bit unsigned. -/
structure boot_data_t where
  boot_count : Nat
  bootreason_cpu0 : RESET_REASON
  bootreason_cpu1 : RESET_REASON
  soft_reset : Bool
  firmware_update : Bool
  stable_reached : Bool
  crash_count_total : Nat
  crash_count_early : Nat
  crash_data : crash_data_t
deriving DecidableEq, Repr

/-- The process-local members of the `Boot` object that the modelled code
touches. -/
structure Boot where
  m_bootreason : bootreason_t
  m_crash_count_early : Nat
  m_restart_timer : Nat
  m_restart_pending : Int
deriving DecidableEq, Repr

/-- The whole state the modelled member functions act on: the singleton
`MyBoot` and the persistent store `boot_data`. -/
structure State where
  MyBoot : Boot
  boot_data : boot_data_t
deriving DecidableEq, Repr

/-- The effect of `memset(&boot_data,0,sizeof(boot_data_t))`: every scalar is 0,
every flag false, every array element 0 (the arrays keep their size). -/
def memset_zero (boot_data : boot_data_t) : boot_data_t :=
  { boot_count := 0
    bootreason_cpu0 := 0
    bootreason_cpu1 := 0
    soft_reset := false
    firmware_update := false
    stable_reached := false
    crash_count_total := 0
    crash_count_early := 0
    crash_data :=
      { core_id := 0
        is_abort := false
        reg := List.replicate boot_data.crash_data.reg.length 0
        bt := List.replicate boot_data.crash_data.bt.length 0 } }

/-- The `++` of an `unsigned int` counter. -/
def incr32 (n : Nat) : Nat := (n + 1) % 2 ^ 32

/-! ## Boot classifier -/

/-- The branch part of `Boot::Boot` (lines 136-174): the store after the
branch and the boot reason chosen. -/
def classify (cpu0 : RESET_REASON) (boot_data : boot_data_t) : boot_data_t × bootreason_t :=
  if cpu0 = POWERON_RESET then
    (memset_zero boot_data, bootreason_t.BR_PowerOn)
  else
    let bd := { boot_data with boot_count := incr32 boot_data.boot_count }
    if bd.soft_reset then
      ({ bd with crash_count_total := 0, crash_count_early := 0 }, bootreason_t.BR_SoftReset)
    else if bd.firmware_update then
      ({ bd with crash_count_total := 0, crash_count_early := 0 }, bootreason_t.BR_FirmwareUpdate)
    else if !bd.stable_reached then
      ({ bd with crash_count_total := incr32 bd.crash_count_total,
                 crash_count_early := incr32 bd.crash_count_early }, bootreason_t.BR_EarlyCrash)
    else
      ({ bd with crash_count_total := incr32 bd.crash_count_total }, bootreason_t.BR_Crash)

/-- The constructor `Boot::Boot`. `cpu0` and `cpu1` are the values returned by
`rtc_get_reset_reason(0)` and `rtc_get_reset_reason(1)`, `boot_data` is the
content of the persistent store found at start. -/
def Boot.Boot (cpu0 cpu1 : RESET_REASON) (boot_data : boot_data_t) : State :=
  let r := classify cpu0 boot_data
  let bd := r.1
  { MyBoot :=
      { m_bootreason := r.2
        m_crash_count_early := bd.crash_count_early
        m_restart_timer := 0
        m_restart_pending := 0 }
    boot_data :=
      { bd with
        bootreason_cpu0 := cpu0
        bootreason_cpu1 := cpu1
        soft_reset := false
        firmware_update := false
        stable_reached := false } }

/-- The member function `Boot::SetStable`. -/
def Boot.SetStable (st : State) : State :=
  { st with boot_data := { st.boot_data with stable_reached := true, crash_count_early := 0 } }

/-! ## Crash capture -/

/-- The exception frame `XtExcFrame` seen as the array of 32-bit words
`((uint32_t*)frame)[k]`. Word 0 is the `exit` slot; words 1..24 are the
registers in the order of the `sdesc` table (PC, PS, A0, A1, ...). -/
structure XtExcFrame where
  word : Nat → Nat

/-- The field `frame->pc` (word 1). -/
def XtExcFrame.pc (frame : XtExcFrame) : Nat := frame.word 1

/-- The field `frame->a0` (word 3). -/
def XtExcFrame.a0 (frame : XtExcFrame) : Nat := frame.word 3

/-- The field `frame->a1` (word 4), the stack pointer at the fault. -/
def XtExcFrame.a1 (frame : XtExcFrame) : Nat := frame.word 4

/-- The macro `_adjusted_pc(pc)`. -/
def _adjusted_pc (pc : Nat) : Nat :=
  if pc &&& 0x80000000 ≠ 0 then (pc &&& 0x3fffffff) ||| 0x40000000 else pc

/-- Subtraction of a constant on `uint32_t`. -/
def sub32 (a b : Nat) : Nat := (a + 2 ^ 32 - b % 2 ^ 32) % 2 ^ 32

/-- Addition on `uint32_t`. -/
def add32 (a b : Nat) : Nat := (a + b) % 2 ^ 32

/-- The stack-pointer check of the IDF (`esp_stack_ptr_is_sane` in
`esp_panic.h`), used to instantiate the parameter `sane` below. -/
def esp_stack_ptr_is_sane (sp : Nat) : Bool :=
  !(decide (sp < 0x3ffae010) || decide (sp > 0x3ffffff0) || decide (sp &&& 0xf ≠ 0))

/-- The variables of the backtrace loop of `Boot::ErrorCallback` (`i`, `pc`,
`sp` and the array `bt`), with three ghost fields that record what the loop
did: `iters` counts the entries into the loop body, `reads` lists the addresses
dereferenced, `writes` lists the indices of `bt` assigned. -/
structure BtWalk where
  i : Nat
  pc : Nat
  sp : Nat
  bt : List Nat
  iters : Nat
  reads : List Nat
  writes : List Nat
deriving DecidableEq, Repr

/-- The loop `while (++i < OVMS_BT_LEVELS) { ... }` of `Boot::ErrorCallback`
(lines 306-316). `sane` is `esp_stack_ptr_is_sane`, `mem a` is the word that a
32-bit load from address `a` returns, `M` is `OVMS_BT_LEVELS`. -/
def btLoop (sane : Nat → Bool) (mem : Nat → Nat) (M : Nat) (s : BtWalk) : BtWalk :=
  if h : s.i + 1 < M then
    let i := s.i + 1
    let psp := s.sp
    if !sane s.sp then
      { s with i := i, iters := s.iters + 1 }
    else
      let sp := mem (add32 (sub32 s.sp 0x10) 4)
      let bt := s.bt.set i (_adjusted_pc (sub32 s.pc 3))
      let pc := mem (sub32 psp 0x10)
      let s1 : BtWalk :=
        { i := i, pc := pc, sp := sp, bt := bt, iters := s.iters + 1
          reads := s.reads ++ [add32 (sub32 s.sp 0x10) 4, sub32 psp 0x10]
          writes := s.writes ++ [i] }
      if pc < 0x40000000 then s1 else btLoop sane mem M s1
  else
    { s with i := s.i + 1 }
termination_by M - s.i
decreasing_by
  simp_wf
  omega

/-- The register copy `for (i=0; i<24; i++) reg[i] = ((uint32_t*)frame)[i+1]`. -/
def saveRegisters (frame : XtExcFrame) (reg : List Nat) : List Nat :=
  (List.range 24).foldl (fun r i => r.set i (frame.word (i + 1))) reg

/-- The state of the backtrace variables when the loop is reached: `bt[0]` has
been assigned from `frame->pc`, `pc` is `frame->a0`, `sp` is `frame->a1`. -/
def btInit (frame : XtExcFrame) (bt : List Nat) : BtWalk :=
  { i := 0
    pc := frame.a0
    sp := frame.a1
    bt := bt.set 0 (_adjusted_pc frame.pc)
    iters := 0
    reads := []
    writes := [0] }

/-- The backtrace part of `Boot::ErrorCallback` with its ghost record. -/
def btWalk (sane : Nat → Bool) (mem : Nat → Nat) (M : Nat) (frame : XtExcFrame)
    (bt : List Nat) : BtWalk :=
  btLoop sane mem M (btInit frame bt)

/-- The static member `Boot::ErrorCallback(frame, core_id, is_abort)`, acting
on the persistent store. -/
def Boot.ErrorCallback (sane : Nat → Bool) (mem : Nat → Nat) (M : Nat) (frame : XtExcFrame)
    (core_id : Nat) (is_abort : Bool) (boot_data : boot_data_t) : boot_data_t :=
  { boot_data with
    crash_data :=
      { core_id := core_id
        is_abort := is_abort
        reg := saveRegisters frame boot_data.crash_data.reg
        bt := (btWalk sane mem M frame boot_data.crash_data.bt).bt } }

/-- The reader loop `for (i=0; i<OVMS_BT_LEVELS && bt[i].pc; i++)` of
`boot_status` and `Boot::NotifyDebugCrash`, started at index `i`: the
addresses it prints, in order. -/
def btEntriesFrom (M : Nat) (bt : List Nat) (i : Nat) : List Nat :=
  if h : i < M ∧ bt.getD i 0 ≠ 0 then bt.getD i 0 :: btEntriesFrom M bt (i + 1) else []
termination_by M - i
decreasing_by
  simp_wf
  omega

/-- The backtrace as both reporters read it. -/
def btEntries (M : Nat) (bt : List Nat) : List Nat := btEntriesFrom M bt 0

/-! ## Concrete inputs used by the worked examples -/

/-- A store as left by a power cycle, laid out for four backtrace levels. -/
def storeFresh : boot_data_t :=
  { boot_count := 0, bootreason_cpu0 := 0, bootreason_cpu1 := 0
    soft_reset := false, firmware_update := false, stable_reached := false
    crash_count_total := 0, crash_count_early := 0
    crash_data := { core_id := 0, is_abort := false, reg := List.replicate 24 0, bt := [0, 0, 0, 0] } }

/-- A store with a restart requested by the user, both deliberate flags set. -/
def storeSoft : boot_data_t :=
  { storeFresh with boot_count := 3, soft_reset := true, firmware_update := true
                    crash_count_total := 5, crash_count_early := 2 }

/-- A store with only the firmware-update flag set. -/
def storeFirmware : boot_data_t :=
  { storeFresh with boot_count := 3, firmware_update := true, stable_reached := true
                    crash_count_total := 5, crash_count_early := 2 }

/-- A store of a session that never declared itself stable. -/
def storeUnstable : boot_data_t :=
  { storeFresh with boot_count := 3, crash_count_total := 5, crash_count_early := 2 }

/-- A store of a session that declared itself stable. -/
def storeStable : boot_data_t :=
  { storeFresh with boot_count := 3, stable_reached := true, crash_count_total := 5 }

/-- A store whose three 32-bit counters hold their largest value. -/
def storeSaturated : boot_data_t :=
  { storeFresh with boot_count := 4294967295, crash_count_total := 4294967295
                    crash_count_early := 4294967295 }

/-- The saturated store of a session that declared itself stable. -/
def storeSaturatedStable : boot_data_t :=
  { storeSaturated with stable_reached := true }

/-- The ROM code of a software CPU reset (`SW_CPU_RESET`), a reset reason other
than power-on. -/
def SW_CPU_RESET : RESET_REASON := 12

/-- A memory in which every word is 0. -/
def memZero : Nat → Nat := fun _ => 0

/-- A memory holding a chain of stack frames that never ends: the word at
`sp - 12` is the next stack pointer `sp + 16`, the word at `sp - 16` is a
return address into the code region. -/
def memEndless : Nat → Nat := fun a => if a % 16 = 4 then a + 28 else 0x800d3003

/-- An exception frame whose stack pointer `a1` is 0, which fails the
stack-pointer check; the fault is at `0x400d1234`. -/
def frameInsane : XtExcFrame :=
  ⟨fun k => if k = 1 then 0x400d1234 else if k = 3 then 0x800d2003 else 0⟩

/-- An exception frame with `a1 = 0` and a faulting address with bit 31 set
(a jump through a corrupted pointer). -/
def frameHighPc : XtExcFrame :=
  ⟨fun k => if k = 1 then 0x800d1234 else if k = 3 then 0x800d2003 else 0⟩

/-- An exception frame with `a1 = 0` and faulting address 0 (a call through a
null function pointer). -/
def frameNullPc : XtExcFrame :=
  ⟨fun k => if k = 3 then 0x800d2003 else 0⟩

/-- An exception frame with a stack pointer inside the stack region. -/
def frameDeep : XtExcFrame :=
  ⟨fun k => if k = 1 then 0x400d1234 else if k = 3 then 0x800d2003
            else if k = 4 then 0x3ffb0010 else 0⟩

/-- A store that still holds the snapshot of an earlier crash with a
three-level backtrace. -/
def storeStale : boot_data_t :=
  { storeFresh with
    crash_data := { core_id := 1, is_abort := false, reg := List.replicate 24 0
                    bt := [0x400d1111, 0x400d2222, 0x400d3333, 0] } }

/-! ## Shutdown coordinator -/

/-- The event names used by the coordinator: `system.shuttingdown`,
`system.shutdown` and `ticker.1`. -/
inductive EventName where
  | system_shuttingdown
  | system_shutdown
  | ticker_1
deriving DecidableEq, Repr

/-- The functions handed to the event framework: the two completion callbacks
and the per-second listener. -/
inductive Callback where
  | boot_shuttingdown_done
  | boot_shutdown_done
  | Ticker1
deriving DecidableEq, Repr

/-- The calls into the collaborators (event framework, configuration, chip
restart) that the coordinator makes, in the order made. Log output is left
out. -/
inductive Effect where
  | esp_restart
  | unmount
  | SignalEvent (event : EventName) (done : Callback)
  | RegisterEvent (event : EventName) (listener : Callback)
deriving DecidableEq, Repr

/-- The value an `int` holds after an arithmetic result `x` is stored in it
(two's complement, 32 bits). -/
def wrap_i32 (x : Int) : Int := (x + 2 ^ 31) % 2 ^ 32 - 2 ^ 31

/-- Modelled from the spec: `Boot::SetSoftReset`, defined in `ovms_boot.h`
(not among the sources); it sets the deliberate-reset flag `soft_reset`. -/
def Boot.SetSoftReset (st : State) : State :=
  { st with boot_data := { st.boot_data with soft_reset := true } }

/-- Modelled from the spec: `Boot::SetFirmwareUpdate`, defined in `ovms_boot.h`
(not among the sources); it sets the one-shot flag `firmware_update`. -/
def Boot.SetFirmwareUpdate (st : State) : State :=
  { st with boot_data := { st.boot_data with firmware_update := true } }

/-- The completion callback `boot_shutdown_done`: unmount the configuration,
then restart the chip. -/
def boot_shutdown_done : List Effect := [Effect.unmount, Effect.esp_restart]

/-- The completion callback `boot_shuttingdown_done`. -/
def boot_shuttingdown_done (st : State) : State :=
  if st.MyBoot.m_restart_pending = 0 then
    { st with MyBoot := { st.MyBoot with m_restart_timer := 2 } }
  else st

/-- The member function `Boot::Restart(hard)`: the state it leaves and the
calls it makes. -/
def Boot.Restart (hard : Bool) (st : State) : State × List Effect :=
  let st := Boot.SetSoftReset st
  if hard then
    (st, [Effect.esp_restart])
  else
    ({ st with MyBoot := { st.MyBoot with m_restart_pending := 0, m_restart_timer := 60 } },
     [Effect.SignalEvent EventName.system_shuttingdown Callback.boot_shuttingdown_done,
      Effect.RegisterEvent EventName.ticker_1 Callback.Ticker1])

/-- The member function `Boot::RestartPending(tag)`. -/
def Boot.RestartPending (st : State) : State :=
  { st with MyBoot :=
      { st.MyBoot with m_restart_pending := wrap_i32 (st.MyBoot.m_restart_pending + 1) } }

/-- The member function `Boot::RestartReady(tag)`. -/
def Boot.RestartReady (st : State) : State :=
  let pending := wrap_i32 (st.MyBoot.m_restart_pending - 1)
  if pending = 0 then
    { st with MyBoot := { st.MyBoot with m_restart_pending := pending, m_restart_timer := 2 } }
  else
    { st with MyBoot := { st.MyBoot with m_restart_pending := pending } }

/-- The member function `Boot::Ticker1(event, data)`. -/
def Boot.Ticker1 (st : State) : State × List Effect :=
  if st.MyBoot.m_restart_timer > 0 then
    let timer := st.MyBoot.m_restart_timer - 1
    let st1 : State := { st with MyBoot := { st.MyBoot with m_restart_timer := timer } }
    if timer = 1 then
      (st1, [])
    else if timer = 0 then
      (st1, [Effect.SignalEvent EventName.system_shutdown Callback.boot_shutdown_done])
    else
      (st1, [])
  else
    (st, [])

/-- The member function `Boot::IsShuttingDown()`. -/
def Boot.IsShuttingDown (st : State) : Bool :=
  decide (st.MyBoot.m_restart_timer > 0)

/-- The calls that reach the coordinator while it runs: `RestartPending`,
`RestartReady`, the per-second listener and the completion callback of the
`system.shuttingdown` announcement. -/
inductive CoordOp where
  | RegisterPending
  | Acknowledge
  | Tick
  | ShuttingdownDone
deriving DecidableEq, Repr

/-- One call: the state it leaves and the calls it makes. -/
def CoordOp.step (op : CoordOp) (st : State) : State × List Effect :=
  match op with
  | CoordOp.RegisterPending => (Boot.RestartPending st, [])
  | CoordOp.Acknowledge => (Boot.RestartReady st, [])
  | CoordOp.Tick => Boot.Ticker1 st
  | CoordOp.ShuttingdownDone => (boot_shuttingdown_done st, [])

/-- A sequence of calls, one after the other: the final state and all the
calls made, in order. -/
def runOps : List CoordOp → State → State × List Effect
  | [], st => (st, [])
  | op :: ops, st =>
    let r := op.step st
    let q := runOps ops r.1
    (q.1, r.2 ++ q.2)

/-- The announcement of the final shutdown. -/
def shutdownSignal : Effect :=
  Effect.SignalEvent EventName.system_shutdown Callback.boot_shutdown_done

/-- A coordinator state with the given countdown and pending count, on a fresh
store. -/
def coordState (timer : Nat) (pending : Int) : State :=
  { MyBoot := { m_bootreason := bootreason_t.BR_PowerOn, m_crash_count_early := 0
                m_restart_timer := timer, m_restart_pending := pending }
    boot_data := storeFresh }

/-- Whether some `RestartReady` call of the sequence brings the pending count
to 0, when the sequence is run from `st`. -/
def ackReachesZero : List CoordOp → State → Bool
  | [], _ => false
  | op :: ops, st =>
    (decide (op = CoordOp.Acknowledge) && decide ((op.step st).1.MyBoot.m_restart_pending = 0))
      || ackReachesZero ops (op.step st).1

/-! ## Reachable stores -/

/-- Whether one of the `++` of the classifier overflows its 32-bit counter
when `Boot::Boot` runs on `boot_data` with core-0 reason `cpu0`. -/
def bootWraps (cpu0 : RESET_REASON) (boot_data : boot_data_t) : Bool :=
  decide (cpu0 ≠ POWERON_RESET) &&
    (decide (2 ^ 32 ≤ boot_data.boot_count + 1) ||
      (!boot_data.soft_reset && !boot_data.firmware_update &&
        (decide (2 ^ 32 ≤ boot_data.crash_count_total + 1) ||
          (!boot_data.stable_reached && decide (2 ^ 32 ≤ boot_data.crash_count_early + 1)))))

/-- The contents of the persistent store that can be reached from a power-on
classification by boot classifications without counter overflow,
`SetStable`, `SetSoftReset`, `SetFirmwareUpdate` and crash captures, in any
order. -/
inductive Reachable : boot_data_t → Prop where
  | power_on (cpu1 : RESET_REASON) (s : boot_data_t) :
      Reachable (Boot.Boot POWERON_RESET cpu1 s).boot_data
  | boot (cpu0 cpu1 : RESET_REASON) (s : boot_data_t) :
      Reachable s → bootWraps cpu0 s = false → Reachable (Boot.Boot cpu0 cpu1 s).boot_data
  | set_stable (b : Boot) (s : boot_data_t) :
      Reachable s → Reachable (Boot.SetStable { MyBoot := b, boot_data := s }).boot_data
  | set_soft_reset (b : Boot) (s : boot_data_t) :
      Reachable s → Reachable (Boot.SetSoftReset { MyBoot := b, boot_data := s }).boot_data
  | set_firmware_update (b : Boot) (s : boot_data_t) :
      Reachable s → Reachable (Boot.SetFirmwareUpdate { MyBoot := b, boot_data := s }).boot_data
  | crash (sane : Nat → Bool) (mem : Nat → Nat) (M : Nat) (frame : XtExcFrame) (core_id : Nat)
      (is_abort : Bool) (s : boot_data_t) :
      Reachable s → Reachable (Boot.ErrorCallback sane mem M frame core_id is_abort s)

/-! ## Reporters -/

/-- The table `edesc` of exception descriptions. -/
def edesc : List String :=
  ["IllegalInstruction", "Syscall", "InstructionFetchError", "LoadStoreError",
   "Level1Interrupt", "Alloca", "IntegerDivideByZero", "PCValue",
   "Privileged", "LoadStoreAlignment", "res", "res",
   "InstrPDAddrError", "LoadStorePIFDataError", "InstrPIFAddrError", "LoadStorePIFAddrError",
   "InstTLBMiss", "InstTLBMultiHit", "InstFetchPrivilege", "res",
   "InstrFetchProhibited", "res", "res", "res",
   "LoadStoreTLBMiss", "LoadStoreTLBMultihit", "LoadStorePrivilege", "res",
   "LoadProhibited", "StoreProhibited", "res", "res",
   "Cp0Dis", "Cp1Dis", "Cp2Dis", "Cp3Dis",
   "Cp4Dis", "Cp5Dis", "Cp6Dis", "Cp7Dis"]

/-- The macro `NUM_EDESCS`, `sizeof(edesc) / sizeof(char *)`, of type `size_t`. -/
def NUM_EDESCS : Nat := edesc.length

/-- The value of an `int` initialised from the 32-bit unsigned `v`, as in
`int exccause = boot_data.crash_data.reg[19]`. -/
def int_of_u32 (v : Nat) : Int :=
  if v % 2 ^ 32 < 2 ^ 31 then ((v % 2 ^ 32 : Nat) : Int) else ((v % 2 ^ 32 : Nat) : Int) - 2 ^ 32

/-- The comparison `x < n` of an `int` with a `size_t` (32 bits, unsigned): the
`int` operand is converted to unsigned first. -/
def int_lt_size (x : Int) (n : Nat) : Bool := decide ((x % 2 ^ 32).toNat < n)

/-- The subscript `edesc[i]` with an `int` index; `none` stands for an access
outside of the table. -/
def edescAt (i : Int) : Option String :=
  if 0 ≤ i then edesc[i.toNat]? else none

/-- The crash type shown by both reporters for a crash that is not an abort
(`boot_status` lines 112-114, `Boot::NotifyDebugCrash` lines 344-346):
`(exccause < NUM_EDESCS) ? edesc[exccause] : "Unknown"` with
`int exccause = reg[19]`. `none` stands for an access outside of the table. -/
def exceptionName (reg19 : Nat) : Option String :=
  let exccause := int_of_u32 reg19
  if int_lt_size exccause NUM_EDESCS then edescAt exccause else some "Unknown"

/-- The table `bootreason_name`, indexed by the boot reason. -/
def bootreason_name : bootreason_t → String
  | bootreason_t.BR_PowerOn => "PowerOn"
  | bootreason_t.BR_SoftReset => "SoftReset"
  | bootreason_t.BR_FirmwareUpdate => "FirmwareUpdate"
  | bootreason_t.BR_EarlyCrash => "EarlyCrash"
  | bootreason_t.BR_Crash => "Crash"

/-- The member function `Boot::GetBootReasonName`. -/
def Boot.GetBootReasonName (st : State) : String := bootreason_name st.MyBoot.m_bootreason

/-- Modelled from the spec: `Boot::GetCrashCount`, defined in `ovms_boot.h`
(not among the sources); it returns `crash_count_total` of the store. -/
def Boot.GetCrashCount (st : State) : Nat := st.boot_data.crash_count_total

/-- Modelled from the spec: `Boot::GetEarlyCrashCount`, defined in
`ovms_boot.h` (not among the sources); it returns the early-crash count
captured at classification. -/
def Boot.GetEarlyCrashCount (st : State) : Nat := st.MyBoot.m_crash_count_early

/-- The character printed for the digit `d` (lower-case hexadecimal). -/
def digitChar (d : Nat) : Char :=
  "0123456789abcdef".data.getD d '0'

/-- The decimal digits of a number below 10^10, without leading zeros. -/
def decimal (n : Nat) : String :=
  let ds := ((List.range 10).map (fun k => (n / 10 ^ (9 - k)) % 10)).dropWhile (fun d => d == 0)
  if ds.isEmpty then String.mk ['0'] else String.mk (ds.map digitChar)

/-- The output of the `printf` conversion `%d` for a 32-bit argument `v`
(the argument is read as an `int`). -/
def fmt_d (v : Nat) : String :=
  let x := int_of_u32 v
  if x < 0 then String.mk ['-'] ++ decimal (-x).toNat else decimal x.toNat

/-- The output of the `printf` format `0x%08lx` for a 32-bit argument `v`:
eight hexadecimal digits after the prefix. -/
def fmt_08lx (v : Nat) : String :=
  String.mk ('0' :: 'x' :: (List.range 8).map (fun k => digitChar ((v / 16 ^ (7 - k)) % 16)))

/-- The loop `for (i=0; i<24; i++) buf.printf("0x%08lx ", reg[i])`, appending
to `buf`. -/
def appendRegisters (reg : List Nat) (buf : String) : String :=
  (List.range 24).foldl (fun b i => b ++ fmt_08lx (reg.getD i 0) ++ String.mk [' ']) buf

/-- The loop `for (i=0; i<OVMS_BT_LEVELS && bt[i].pc; i++)
buf.printf("0x%08lx ", bt[i].pc)`, appending to `buf`. -/
def appendBacktrace (M : Nat) (bt : List Nat) (buf : String) : String :=
  (btEntries M bt).foldl (fun b pc => b ++ fmt_08lx pc ++ String.mk [' ']) buf

/-- The member function `Boot::NotifyDebugCrash`: the string handed to
`MyNotify.NotifyString("data", "debug.crash", ...)`, or `none` when no
notification is sent. `version` is `StdMetrics.ms_m_version->AsString("")`,
`M` is `OVMS_BT_LEVELS`. -/
def Boot.NotifyDebugCrash (version : String) (M : Nat) (st : State) : Option String :=
  if Boot.GetCrashCount st > 0 then
    let buf := String.mk []
    let buf := buf ++ "*-OVM-DebugCrash,0,2592000,"
    let buf := buf ++ version
    let buf := buf ++ "," ++ fmt_d st.boot_data.boot_count ++ "," ++ Boot.GetBootReasonName st
      ++ "," ++ fmt_d st.boot_data.bootreason_cpu0 ++ "," ++ fmt_d st.boot_data.bootreason_cpu1
      ++ "," ++ fmt_d (Boot.GetCrashCount st) ++ "," ++ fmt_d (Boot.GetEarlyCrashCount st)
    let buf :=
      if st.boot_data.crash_data.is_abort then
        buf ++ ",abort()," ++ fmt_d st.boot_data.crash_data.core_id ++ ","
      else
        appendRegisters st.boot_data.crash_data.reg
          (buf ++ "," ++ (exceptionName (st.boot_data.crash_data.reg.getD 19 0)).getD ""
            ++ "," ++ fmt_d st.boot_data.crash_data.core_id ++ ",")
    let buf := buf ++ ","
    let buf := appendBacktrace M st.boot_data.crash_data.bt buf
    some buf
  else
    none

/-- The register-dump field of the record: empty for an abort, otherwise the
24 registers, each followed by a space. -/
def registerField (st : State) : String :=
  if st.boot_data.crash_data.is_abort then String.mk []
  else appendRegisters st.boot_data.crash_data.reg (String.mk [])

/-- The 14 fields of the structured record, in the order of the specification:
record type, protocol version, retention seconds, firmware version,
boot count, boot reason name, reset reason of core 0, reset reason of core 1,
total crash count, early crash count, crash type, crash core id, register
dump, backtrace. -/
def recordFields (version : String) (M : Nat) (st : State) : List String :=
  ["*-OVM-DebugCrash", "0", "2592000", version,
   fmt_d st.boot_data.boot_count, Boot.GetBootReasonName st,
   fmt_d st.boot_data.bootreason_cpu0, fmt_d st.boot_data.bootreason_cpu1,
   fmt_d (Boot.GetCrashCount st), fmt_d (Boot.GetEarlyCrashCount st),
   (if st.boot_data.crash_data.is_abort then "abort()"
    else (exceptionName (st.boot_data.crash_data.reg.getD 19 0)).getD ""),
   fmt_d st.boot_data.crash_data.core_id,
   registerField st,
   appendBacktrace M st.boot_data.crash_data.bt (String.mk [])]

/-- A state after a crash: boot 3 classified as `Crash`, one crash counted,
the snapshot of a `LoadProhibited` exception on core 1 with one backtrace
entry. -/
def stateCrashed : State :=
  { MyBoot := { m_bootreason := bootreason_t.BR_Crash, m_crash_count_early := 0
                m_restart_timer := 0, m_restart_pending := 0 }
    boot_data :=
      { storeFresh with
        boot_count := 3, bootreason_cpu0 := 12, bootreason_cpu1 := 12, crash_count_total := 1
        crash_data :=
          { core_id := 1, is_abort := false
            reg := (List.replicate 24 0).set 19 28
            bt := [0x400d1234, 0, 0, 0] } } }

/-- The text that `boot_status` prints in lines 102-114, from the guard
`MyBoot.GetCrashCount() > 0` through the line that names the last crash;
`none` when the guard fails and the section prints nothing. -/
def boot_status_last_crash (st : State) : Option String :=
  if Boot.GetCrashCount st > 0 then
    let out := "\nLast crash: "
    if st.boot_data.crash_data.is_abort then
      some (out ++ "abort() was called on core "
        ++ fmt_d st.boot_data.crash_data.core_id ++ "\n")
    else
      some (out ++ (exceptionName (st.boot_data.crash_data.reg.getD 19 0)).getD ""
        ++ " exception on core " ++ fmt_d st.boot_data.crash_data.core_id ++ "\n")
  else
    none

end OvmsBoot

/-! # Theorems -/

namespace OvmsBoot

/-! ## Boot classifier -/

/-- C1: after a reset that is not a power-on, the classifier yields `SoftReset`
when `soft_reset` is set (whatever `firmware_update` is), yields
`FirmwareUpdate` when `soft_reset` is clear and `firmware_update` is set, and in
both cases both crash counters are 0 afterwards. -/
theorem boot_deliberate_reset (cpu0 cpu1 : RESET_REASON) (s : boot_data_t)
    (hcpu : cpu0 ≠ POWERON_RESET) :
    (s.soft_reset = true →
      (Boot.Boot cpu0 cpu1 s).MyBoot.m_bootreason = bootreason_t.BR_SoftReset ∧
      (Boot.Boot cpu0 cpu1 s).boot_data.crash_count_total = 0 ∧
      (Boot.Boot cpu0 cpu1 s).boot_data.crash_count_early = 0) ∧
    (s.soft_reset = false → s.firmware_update = true →
      (Boot.Boot cpu0 cpu1 s).MyBoot.m_bootreason = bootreason_t.BR_FirmwareUpdate ∧
      (Boot.Boot cpu0 cpu1 s).boot_data.crash_count_total = 0 ∧
      (Boot.Boot cpu0 cpu1 s).boot_data.crash_count_early = 0) := by
  refine ⟨fun hs => ?_, fun hs hf => ?_⟩
  · simp [Boot.Boot, classify, hcpu, hs]
  · simp [Boot.Boot, classify, hcpu, hs, hf]

/-- C1 at two concrete stores: one with both deliberate flags set, one with
only `firmware_update` set. -/
theorem boot_deliberate_reset_witness :
    ((Boot.Boot SW_CPU_RESET SW_CPU_RESET storeSoft).MyBoot.m_bootreason
        = bootreason_t.BR_SoftReset ∧
      (Boot.Boot SW_CPU_RESET SW_CPU_RESET storeSoft).boot_data.crash_count_total = 0 ∧
      (Boot.Boot SW_CPU_RESET SW_CPU_RESET storeSoft).boot_data.crash_count_early = 0) ∧
    ((Boot.Boot SW_CPU_RESET SW_CPU_RESET storeFirmware).MyBoot.m_bootreason
        = bootreason_t.BR_FirmwareUpdate ∧
      (Boot.Boot SW_CPU_RESET SW_CPU_RESET storeFirmware).boot_data.crash_count_total = 0 ∧
      (Boot.Boot SW_CPU_RESET SW_CPU_RESET storeFirmware).boot_data.crash_count_early = 0) :=
  ⟨(boot_deliberate_reset SW_CPU_RESET SW_CPU_RESET storeSoft (by decide)).1 rfl,
   (boot_deliberate_reset SW_CPU_RESET SW_CPU_RESET storeFirmware (by decide)).2 rfl rfl⟩

/-- C2 as stated fails at a store whose crash counters hold 2^32-1: the boot
is classified as `EarlyCrash`, yet both counters wrap to 0 instead of being one
greater than before. -/
theorem boot_early_crash_counterexample :
    SW_CPU_RESET ≠ POWERON_RESET ∧
    storeSaturated.soft_reset = false ∧ storeSaturated.firmware_update = false ∧
    storeSaturated.stable_reached = false ∧
    (Boot.Boot SW_CPU_RESET SW_CPU_RESET storeSaturated).MyBoot.m_bootreason
      = bootreason_t.BR_EarlyCrash ∧
    storeSaturated.crash_count_total = 4294967295 ∧
    storeSaturated.crash_count_early = 4294967295 ∧
    (Boot.Boot SW_CPU_RESET SW_CPU_RESET storeSaturated).boot_data.crash_count_total = 0 ∧
    (Boot.Boot SW_CPU_RESET SW_CPU_RESET storeSaturated).boot_data.crash_count_early = 0 ∧
    (Boot.Boot SW_CPU_RESET SW_CPU_RESET storeSaturated).boot_data.crash_count_total
      ≠ storeSaturated.crash_count_total + 1 ∧
    (Boot.Boot SW_CPU_RESET SW_CPU_RESET storeSaturated).boot_data.crash_count_early
      ≠ storeSaturated.crash_count_early + 1 := by
  decide

/-- C2 (amended): with both deliberate flags clear and `stable_reached` false,
a reset that is not a power-on is classified as `EarlyCrash` and both crash
counters are incremented as 32-bit unsigned counters: each is the old value
plus one modulo 2^32, hence exactly one greater than before when the old value
is below 2^32-1, and 0 when the old value is 2^32-1. -/
theorem boot_early_crash (cpu0 cpu1 : RESET_REASON) (s : boot_data_t)
    (hcpu : cpu0 ≠ POWERON_RESET) (hs : s.soft_reset = false)
    (hf : s.firmware_update = false) (hst : s.stable_reached = false) :
    (Boot.Boot cpu0 cpu1 s).MyBoot.m_bootreason = bootreason_t.BR_EarlyCrash ∧
    (Boot.Boot cpu0 cpu1 s).boot_data.crash_count_total
      = (s.crash_count_total + 1) % 2 ^ 32 ∧
    (Boot.Boot cpu0 cpu1 s).boot_data.crash_count_early
      = (s.crash_count_early + 1) % 2 ^ 32 ∧
    (s.crash_count_total < 2 ^ 32 - 1 →
      (Boot.Boot cpu0 cpu1 s).boot_data.crash_count_total = s.crash_count_total + 1) ∧
    (s.crash_count_early < 2 ^ 32 - 1 →
      (Boot.Boot cpu0 cpu1 s).boot_data.crash_count_early = s.crash_count_early + 1) ∧
    (s.crash_count_total = 2 ^ 32 - 1 →
      (Boot.Boot cpu0 cpu1 s).boot_data.crash_count_total = 0) ∧
    (s.crash_count_early = 2 ^ 32 - 1 →
      (Boot.Boot cpu0 cpu1 s).boot_data.crash_count_early = 0) := by
  have ht : (Boot.Boot cpu0 cpu1 s).boot_data.crash_count_total
      = (s.crash_count_total + 1) % 2 ^ 32 := by
    simp [Boot.Boot, classify, hcpu, hs, hf, hst, incr32]
  have he : (Boot.Boot cpu0 cpu1 s).boot_data.crash_count_early
      = (s.crash_count_early + 1) % 2 ^ 32 := by
    simp [Boot.Boot, classify, hcpu, hs, hf, hst, incr32]
  refine ⟨?_, ht, he, fun h => ?_, fun h => ?_, fun h => ?_, fun h => ?_⟩
  · simp [Boot.Boot, classify, hcpu, hs, hf, hst]
  · rw [ht]; omega
  · rw [he]; omega
  · rw [ht, h]; decide
  · rw [he, h]; decide

/-- C2 (amended) at a concrete store with counters 5 and 2. -/
theorem boot_early_crash_witness :
    (Boot.Boot SW_CPU_RESET SW_CPU_RESET storeUnstable).MyBoot.m_bootreason
      = bootreason_t.BR_EarlyCrash ∧
    (Boot.Boot SW_CPU_RESET SW_CPU_RESET storeUnstable).boot_data.crash_count_total = 5 + 1 ∧
    (Boot.Boot SW_CPU_RESET SW_CPU_RESET storeUnstable).boot_data.crash_count_early = 2 + 1 :=
  have h := boot_early_crash SW_CPU_RESET SW_CPU_RESET storeUnstable (by decide) rfl rfl rfl
  ⟨h.1, h.2.2.2.1 (by decide), h.2.2.2.2.1 (by decide)⟩

/-- C3 as stated fails at a stable store whose total crash counter holds
2^32-1: the boot is classified as `Crash`, yet the counter wraps to 0 instead
of being one greater than before. -/
theorem boot_crash_counterexample :
    SW_CPU_RESET ≠ POWERON_RESET ∧
    storeSaturatedStable.soft_reset = false ∧ storeSaturatedStable.firmware_update = false ∧
    storeSaturatedStable.stable_reached = true ∧
    (Boot.Boot SW_CPU_RESET SW_CPU_RESET storeSaturatedStable).MyBoot.m_bootreason
      = bootreason_t.BR_Crash ∧
    storeSaturatedStable.crash_count_total = 4294967295 ∧
    (Boot.Boot SW_CPU_RESET SW_CPU_RESET storeSaturatedStable).boot_data.crash_count_total = 0 ∧
    (Boot.Boot SW_CPU_RESET SW_CPU_RESET storeSaturatedStable).boot_data.crash_count_total
      ≠ storeSaturatedStable.crash_count_total + 1 := by
  decide

/-- C3 (amended): with both deliberate flags clear and `stable_reached` true, a
reset that is not a power-on is classified as `Crash`, `crash_count_early` is
unchanged, and `crash_count_total` is incremented as a 32-bit unsigned counter:
the old value plus one modulo 2^32, hence exactly one greater than before when
the old value is below 2^32-1, and 0 when the old value is 2^32-1. -/
theorem boot_crash (cpu0 cpu1 : RESET_REASON) (s : boot_data_t)
    (hcpu : cpu0 ≠ POWERON_RESET) (hs : s.soft_reset = false)
    (hf : s.firmware_update = false) (hst : s.stable_reached = true) :
    (Boot.Boot cpu0 cpu1 s).MyBoot.m_bootreason = bootreason_t.BR_Crash ∧
    (Boot.Boot cpu0 cpu1 s).boot_data.crash_count_early = s.crash_count_early ∧
    (Boot.Boot cpu0 cpu1 s).boot_data.crash_count_total
      = (s.crash_count_total + 1) % 2 ^ 32 ∧
    (s.crash_count_total < 2 ^ 32 - 1 →
      (Boot.Boot cpu0 cpu1 s).boot_data.crash_count_total = s.crash_count_total + 1) ∧
    (s.crash_count_total = 2 ^ 32 - 1 →
      (Boot.Boot cpu0 cpu1 s).boot_data.crash_count_total = 0) := by
  have ht : (Boot.Boot cpu0 cpu1 s).boot_data.crash_count_total
      = (s.crash_count_total + 1) % 2 ^ 32 := by
    simp [Boot.Boot, classify, hcpu, hs, hf, hst, incr32]
  refine ⟨?_, ?_, ht, fun h => ?_, fun h => ?_⟩
  · simp [Boot.Boot, classify, hcpu, hs, hf, hst]
  · simp [Boot.Boot, classify, hcpu, hs, hf, hst]
  · rw [ht]; omega
  · rw [ht, h]; decide

/-- C3 (amended) at a concrete stable store with 5 crashes counted. -/
theorem boot_crash_witness :
    (Boot.Boot SW_CPU_RESET SW_CPU_RESET storeStable).MyBoot.m_bootreason
      = bootreason_t.BR_Crash ∧
    (Boot.Boot SW_CPU_RESET SW_CPU_RESET storeStable).boot_data.crash_count_early = 0 ∧
    (Boot.Boot SW_CPU_RESET SW_CPU_RESET storeStable).boot_data.crash_count_total = 5 + 1 :=
  have h := boot_crash SW_CPU_RESET SW_CPU_RESET storeStable (by decide) rfl rfl rfl
  ⟨h.1, h.2.1, h.2.2.2.1 (by decide)⟩

/-- C4: when core 0 reports a power-on reset, whatever the store held, the
classifier yields `PowerOn` and the store afterwards is the zeroed store with
only the two reset reasons written: `boot_count`, both crash counters, the
three flags, the core id, the abort flag, every register and every backtrace
entry are zero, and the two arrays keep their sizes. -/
theorem boot_power_on_zeroes_store (cpu1 : RESET_REASON) (s : boot_data_t) :
    (Boot.Boot POWERON_RESET cpu1 s).MyBoot.m_bootreason = bootreason_t.BR_PowerOn ∧
    (Boot.Boot POWERON_RESET cpu1 s).boot_data
      = { memset_zero s with bootreason_cpu0 := POWERON_RESET, bootreason_cpu1 := cpu1 } ∧
    (Boot.Boot POWERON_RESET cpu1 s).boot_data.boot_count = 0 ∧
    (Boot.Boot POWERON_RESET cpu1 s).boot_data.crash_count_total = 0 ∧
    (Boot.Boot POWERON_RESET cpu1 s).boot_data.crash_count_early = 0 ∧
    (Boot.Boot POWERON_RESET cpu1 s).boot_data.soft_reset = false ∧
    (Boot.Boot POWERON_RESET cpu1 s).boot_data.firmware_update = false ∧
    (Boot.Boot POWERON_RESET cpu1 s).boot_data.stable_reached = false ∧
    (Boot.Boot POWERON_RESET cpu1 s).boot_data.crash_data.core_id = 0 ∧
    (Boot.Boot POWERON_RESET cpu1 s).boot_data.crash_data.is_abort = false ∧
    (Boot.Boot POWERON_RESET cpu1 s).boot_data.crash_data.reg.length
      = s.crash_data.reg.length ∧
    (∀ r ∈ (Boot.Boot POWERON_RESET cpu1 s).boot_data.crash_data.reg, r = 0) ∧
    (Boot.Boot POWERON_RESET cpu1 s).boot_data.crash_data.bt.length
      = s.crash_data.bt.length ∧
    (∀ b ∈ (Boot.Boot POWERON_RESET cpu1 s).boot_data.crash_data.bt, b = 0) ∧
    (Boot.Boot POWERON_RESET cpu1 s).boot_data.bootreason_cpu0 = POWERON_RESET ∧
    (Boot.Boot POWERON_RESET cpu1 s).boot_data.bootreason_cpu1 = cpu1 := by
  have hbd : (Boot.Boot POWERON_RESET cpu1 s).boot_data
      = { memset_zero s with bootreason_cpu0 := POWERON_RESET, bootreason_cpu1 := cpu1 } := by
    simp [Boot.Boot, classify, memset_zero]
  refine ⟨by simp [Boot.Boot, classify], hbd, ?_⟩
  rw [hbd]
  simp only [memset_zero, List.length_replicate, true_and]
  exact ⟨fun r hr => (List.mem_replicate.mp hr).2, fun b hb => (List.mem_replicate.mp hb).2,
    trivial⟩

/-- C5 as stated fails at a store whose `boot_count` holds 2^32-1: after a
reset that is not a power-on, `boot_count` is 0, which is neither greater than
before nor the old value plus one. -/
theorem boot_count_counterexample :
    SW_CPU_RESET ≠ POWERON_RESET ∧
    storeSaturated.boot_count = 4294967295 ∧
    (Boot.Boot SW_CPU_RESET SW_CPU_RESET storeSaturated).boot_data.boot_count = 0 ∧
    ¬ (storeSaturated.boot_count
        < (Boot.Boot SW_CPU_RESET SW_CPU_RESET storeSaturated).boot_data.boot_count) ∧
    (Boot.Boot SW_CPU_RESET SW_CPU_RESET storeSaturated).boot_data.boot_count
      ≠ storeSaturated.boot_count + 1 := by
  decide

/-- C5 (amended): `boot_count` is a 32-bit unsigned counter. A classification
with a core-0 reason other than power-on leaves it at the old value plus one
modulo 2^32: strictly greater than before (the old value plus one) when the
old value is below 2^32-1, and 0 when the old value is 2^32-1. A classification
with a power-on reason leaves `boot_count = 0`. -/
theorem boot_count_step (cpu0 cpu1 : RESET_REASON) (s : boot_data_t) :
    (cpu0 ≠ POWERON_RESET →
      (Boot.Boot cpu0 cpu1 s).boot_data.boot_count = (s.boot_count + 1) % 2 ^ 32 ∧
      (s.boot_count < 2 ^ 32 - 1 →
        (Boot.Boot cpu0 cpu1 s).boot_data.boot_count = s.boot_count + 1 ∧
        s.boot_count < (Boot.Boot cpu0 cpu1 s).boot_data.boot_count) ∧
      (s.boot_count = 2 ^ 32 - 1 → (Boot.Boot cpu0 cpu1 s).boot_data.boot_count = 0)) ∧
    (cpu0 = POWERON_RESET → (Boot.Boot cpu0 cpu1 s).boot_data.boot_count = 0) := by
  refine ⟨fun hcpu => ?_, fun hcpu => ?_⟩
  · have hb : (Boot.Boot cpu0 cpu1 s).boot_data.boot_count = (s.boot_count + 1) % 2 ^ 32 := by
      simp only [Boot.Boot, classify, hcpu, if_false, incr32]
      split_ifs <;> rfl
    refine ⟨hb, fun h => ?_, fun h => ?_⟩
    · rw [hb]; omega
    · rw [hb, h]; decide
  · simp [Boot.Boot, classify, hcpu, memset_zero]

/-- C5 (amended) at concrete stores: from `boot_count = 3` a software reset
gives 4, and a power-on gives 0. -/
theorem boot_count_step_witness :
    (Boot.Boot SW_CPU_RESET SW_CPU_RESET storeUnstable).boot_data.boot_count = 3 + 1 ∧
    storeUnstable.boot_count
      < (Boot.Boot SW_CPU_RESET SW_CPU_RESET storeUnstable).boot_data.boot_count ∧
    (Boot.Boot POWERON_RESET SW_CPU_RESET storeUnstable).boot_data.boot_count = 0 :=
  ⟨(((boot_count_step SW_CPU_RESET SW_CPU_RESET storeUnstable).1 (by decide)).2.1
      (by decide)).1,
   (((boot_count_step SW_CPU_RESET SW_CPU_RESET storeUnstable).1 (by decide)).2.1
      (by decide)).2,
   (boot_count_step POWERON_RESET SW_CPU_RESET storeUnstable).2 rfl⟩

/-- C6: whatever the store held and whatever the two reset reasons are, after
the classifier returns the three one-shot flags are false; hence a following
classification with a reason other than power-on, run on any store whose three
flags are as the first classification left them, yields `EarlyCrash` (so
neither `SoftReset` nor `FirmwareUpdate`). -/
theorem boot_clears_flags (cpu0 cpu1 : RESET_REASON) (s : boot_data_t) :
    (Boot.Boot cpu0 cpu1 s).boot_data.soft_reset = false ∧
    (Boot.Boot cpu0 cpu1 s).boot_data.firmware_update = false ∧
    (Boot.Boot cpu0 cpu1 s).boot_data.stable_reached = false ∧
    ∀ (cpu0' cpu1' : RESET_REASON) (s' : boot_data_t),
      cpu0' ≠ POWERON_RESET →
      s'.soft_reset = (Boot.Boot cpu0 cpu1 s).boot_data.soft_reset →
      s'.firmware_update = (Boot.Boot cpu0 cpu1 s).boot_data.firmware_update →
      s'.stable_reached = (Boot.Boot cpu0 cpu1 s).boot_data.stable_reached →
      (Boot.Boot cpu0' cpu1' s').MyBoot.m_bootreason = bootreason_t.BR_EarlyCrash ∧
      (Boot.Boot cpu0' cpu1' s').MyBoot.m_bootreason ≠ bootreason_t.BR_SoftReset ∧
      (Boot.Boot cpu0' cpu1' s').MyBoot.m_bootreason ≠ bootreason_t.BR_FirmwareUpdate := by
  have h1 : (Boot.Boot cpu0 cpu1 s).boot_data.soft_reset = false := rfl
  have h2 : (Boot.Boot cpu0 cpu1 s).boot_data.firmware_update = false := rfl
  have h3 : (Boot.Boot cpu0 cpu1 s).boot_data.stable_reached = false := rfl
  refine ⟨h1, h2, h3, fun cpu0' cpu1' s' hcpu hs hf hst => ?_⟩
  rw [h1] at hs
  rw [h2] at hf
  rw [h3] at hst
  have he : (Boot.Boot cpu0' cpu1' s').MyBoot.m_bootreason = bootreason_t.BR_EarlyCrash := by
    simp [Boot.Boot, classify, hcpu, hs, hf, hst]
  rw [he]
  exact ⟨rfl, by decide, by decide⟩

/-- C6 at a concrete store: a user-requested restart is classified as
`SoftReset`, and the reset after it, with nothing set in between, as
`EarlyCrash`. -/
theorem boot_clears_flags_witness :
    (Boot.Boot SW_CPU_RESET SW_CPU_RESET storeSoft).MyBoot.m_bootreason
      = bootreason_t.BR_SoftReset ∧
    (Boot.Boot SW_CPU_RESET SW_CPU_RESET
        (Boot.Boot SW_CPU_RESET SW_CPU_RESET storeSoft).boot_data).MyBoot.m_bootreason
      = bootreason_t.BR_EarlyCrash :=
  ⟨by decide,
   ((boot_clears_flags SW_CPU_RESET SW_CPU_RESET storeSoft).2.2.2 SW_CPU_RESET SW_CPU_RESET
      (Boot.Boot SW_CPU_RESET SW_CPU_RESET storeSoft).boot_data (by decide) rfl rfl rfl).1⟩

/-- C7: `Boot::SetStable` leaves `stable_reached = true` and
`crash_count_early = 0` in the store whatever they were, changes no other field
of the store, and leaves the `Boot` object untouched; in particular, called
after the classifier, the early-crash count captured at classification is
still the one the classifier computed. -/
theorem set_stable_frame (st : State) :
    (Boot.SetStable st).boot_data.stable_reached = true ∧
    (Boot.SetStable st).boot_data.crash_count_early = 0 ∧
    (Boot.SetStable st).boot_data.boot_count = st.boot_data.boot_count ∧
    (Boot.SetStable st).boot_data.crash_count_total = st.boot_data.crash_count_total ∧
    (Boot.SetStable st).boot_data.soft_reset = st.boot_data.soft_reset ∧
    (Boot.SetStable st).boot_data.firmware_update = st.boot_data.firmware_update ∧
    (Boot.SetStable st).boot_data.bootreason_cpu0 = st.boot_data.bootreason_cpu0 ∧
    (Boot.SetStable st).boot_data.bootreason_cpu1 = st.boot_data.bootreason_cpu1 ∧
    (Boot.SetStable st).boot_data.crash_data = st.boot_data.crash_data ∧
    (Boot.SetStable st).MyBoot = st.MyBoot ∧
    ∀ (cpu0 cpu1 : RESET_REASON) (s : boot_data_t),
      (Boot.SetStable (Boot.Boot cpu0 cpu1 s)).MyBoot.m_crash_count_early
        = (Boot.Boot cpu0 cpu1 s).boot_data.crash_count_early ∧
      (Boot.SetStable (Boot.Boot cpu0 cpu1 s)).MyBoot.m_crash_count_early
        = (classify cpu0 s).1.crash_count_early :=
  ⟨rfl, rfl, rfl, rfl, rfl, rfl, rfl, rfl, rfl, rfl, fun _ _ _ => ⟨rfl, rfl⟩⟩

/-! ## Crash capture -/

/-- One unfolding of the backtrace loop when the stack pointer fails the
check: the body is left at once, nothing is read or written. -/
theorem btLoop_insane (sane : Nat → Bool) (mem : Nat → Nat) (M : Nat) (s : BtWalk)
    (h : sane s.sp = false) :
    btLoop sane mem M s
      = if s.i + 1 < M then { s with i := s.i + 1, iters := s.iters + 1 }
        else { s with i := s.i + 1 } := by
  rw [btLoop]
  simp [h]

/-- Bounds on what the backtrace loop does, from any loop state. -/
theorem btLoop_bounds (sane : Nat → Bool) (mem : Nat → Nat) (M : Nat) :
    ∀ (n : Nat) (s : BtWalk), M - s.i ≤ n →
      (btLoop sane mem M s).iters ≤ s.iters + (M - (s.i + 1)) ∧
      (∀ k ∈ (btLoop sane mem M s).writes, k ∈ s.writes ∨ (s.i < k ∧ k < M)) ∧
      (btLoop sane mem M s).bt.length = s.bt.length := by
  intro n
  induction n with
  | zero =>
    intro s hn
    have hM : ¬ (s.i + 1 < M) := by omega
    rw [btLoop, dif_neg hM]
    exact ⟨by simp, fun k hk => Or.inl hk, rfl⟩
  | succ n ih =>
    intro s hn
    rw [btLoop]
    dsimp only
    split_ifs with hM hs hp
    · exact ⟨by simp only; omega, fun k hk => Or.inl hk, rfl⟩
    · refine ⟨by simp only; omega, fun k hk => ?_, by simp⟩
      rcases List.mem_append.mp hk with hk | hk
      · exact Or.inl hk
      · right
        have : k = s.i + 1 := by simpa using hk
        omega
    · have h := ih { i := s.i + 1, pc := mem (sub32 s.sp 0x10)
                     sp := mem (add32 (sub32 s.sp 0x10) 4)
                     bt := s.bt.set (s.i + 1) (_adjusted_pc (sub32 s.pc 3))
                     iters := s.iters + 1
                     reads := s.reads ++ [add32 (sub32 s.sp 0x10) 4, sub32 s.sp 0x10]
                     writes := s.writes ++ [s.i + 1] } (by simp only; omega)
      refine ⟨?_, fun k hk => ?_, ?_⟩
      · have := h.1
        simp only at this
        omega
      · rcases h.2.1 k hk with hk | hk
        · rcases List.mem_append.mp hk with hk | hk
          · exact Or.inl hk
          · right
            have : k = s.i + 1 := by simpa using hk
            omega
        · right
          simp only at hk
          omega
      · rw [h.2.2]; simp
    · exact ⟨by simp, fun k hk => Or.inl hk, rfl⟩

/-- The reader loop started at index `i` prints at most `M - i` addresses. -/
theorem btEntriesFrom_length (M : Nat) (bt : List Nat) :
    ∀ (n i : Nat), M - i ≤ n → (btEntriesFrom M bt i).length ≤ M - i := by
  intro n
  induction n with
  | zero =>
    intro i hn
    rw [btEntriesFrom]
    have : ¬ (i < M ∧ bt.getD i 0 ≠ 0) := fun h => by omega
    rw [dif_neg this]
    simp
  | succ n ih =>
    intro i hn
    rw [btEntriesFrom]
    split_ifs with h
    · have := ih (i + 1) (by omega)
      simp only [List.length_cons]
      omega
    · simp

/-- The backtrace variables after the loop when the initial stack pointer
fails the check: only the initial assignment of `bt[0]` has happened. -/
theorem btWalk_insane (sane : Nat → Bool) (mem : Nat → Nat) (M : Nat) (frame : XtExcFrame)
    (bt : List Nat) (hsp : sane frame.a1 = false) :
    (btWalk sane mem M frame bt).bt = bt.set 0 (_adjusted_pc frame.pc) ∧
    (btWalk sane mem M frame bt).reads = [] ∧
    (btWalk sane mem M frame bt).writes = [0] := by
  have h := btLoop_insane sane mem M (btInit frame bt) hsp
  unfold btWalk
  rw [h]
  split_ifs <;> exact ⟨rfl, rfl, rfl⟩

/-- C8 as stated fails already on a store fresh from power-on. With an insane
stack pointer and a faulting address with bit 31 set, the single entry read
back is the adjusted address `0x400d1234`, not the frame's pc `0x800d1234`;
with faulting address 0 the backtrace read back is empty. -/
theorem error_callback_insane_sp_counterexample :
    esp_stack_ptr_is_sane frameHighPc.a1 = false ∧
    frameHighPc.pc = 0x800d1234 ∧
    btEntries 4 (Boot.ErrorCallback esp_stack_ptr_is_sane memZero 4 frameHighPc 0 false
      storeFresh).crash_data.bt = [0x400d1234] ∧
    btEntries 4 (Boot.ErrorCallback esp_stack_ptr_is_sane memZero 4 frameHighPc 0 false
      storeFresh).crash_data.bt ≠ [frameHighPc.pc] ∧
    esp_stack_ptr_is_sane frameNullPc.a1 = false ∧
    frameNullPc.pc = 0 ∧
    btEntries 4 (Boot.ErrorCallback esp_stack_ptr_is_sane memZero 4 frameNullPc 0 false
      storeFresh).crash_data.bt = [] := by
  simp +decide [btEntries, btEntriesFrom, Boot.ErrorCallback, btWalk, btLoop, btInit,
    frameHighPc, frameNullPc, storeFresh, esp_stack_ptr_is_sane, _adjusted_pc,
    XtExcFrame.pc, XtExcFrame.a0, XtExcFrame.a1]

/-- C8 (amended): when the initial stack pointer `a1` fails the stack-sanity
check, crash capture reads no memory and stores the adjusted faulting address
`_adjusted_pc(pc)` in entry 0 of the backtrace; that address is the frame's pc
itself when bit 31 of pc is clear. Read as the reporters read it, the backtrace
consists of exactly that one entry provided the entry is not zero and entry 1
of the store held zero before the capture (or `M = 1`). -/
theorem error_callback_insane_sp (sane : Nat → Bool) (mem : Nat → Nat) (M : Nat)
    (frame : XtExcFrame) (core_id : Nat) (is_abort : Bool) (s : boot_data_t)
    (hsp : sane frame.a1 = false) (hM : 0 < M) (hlen : s.crash_data.bt.length = M) :
    (btWalk sane mem M frame s.crash_data.bt).reads = [] ∧
    (Boot.ErrorCallback sane mem M frame core_id is_abort s).crash_data.bt.getD 0 0
      = _adjusted_pc frame.pc ∧
    (frame.pc &&& 0x80000000 = 0 → _adjusted_pc frame.pc = frame.pc) ∧
    (_adjusted_pc frame.pc ≠ 0 → (1 < M → s.crash_data.bt.getD 1 0 = 0) →
      btEntries M (Boot.ErrorCallback sane mem M frame core_id is_abort s).crash_data.bt
        = [_adjusted_pc frame.pc]) := by
  obtain ⟨hbt, hreads, -⟩ := btWalk_insane sane mem M frame s.crash_data.bt hsp
  have hpos : 0 < s.crash_data.bt.length := by omega
  have h0 : (s.crash_data.bt.set 0 (_adjusted_pc frame.pc)).getD 0 0 = _adjusted_pc frame.pc := by
    simp [List.getD_eq_getElem?_getD, hpos]
  have h1 : (s.crash_data.bt.set 0 (_adjusted_pc frame.pc)).getD 1 0
      = s.crash_data.bt.getD 1 0 := by
    simp [List.getD_eq_getElem?_getD]
  refine ⟨hreads, ?_, fun hb => ?_, fun hne hz => ?_⟩
  · show (btWalk sane mem M frame s.crash_data.bt).bt.getD 0 0 = _
    rw [hbt, h0]
  · simp [_adjusted_pc, hb]
  · show btEntries M (btWalk sane mem M frame s.crash_data.bt).bt = _
    rw [hbt, btEntries, btEntriesFrom, dif_pos ⟨hM, by rw [h0]; exact hne⟩, h0, btEntriesFrom,
      dif_neg]
    rintro ⟨hlt, hnz⟩
    rw [h1] at hnz
    exact hnz (hz hlt)

/-- C8 (amended) at a concrete frame with `a1 = 0` and fault address
`0x400d1234`, on a store fresh from power-on with four backtrace levels. -/
theorem error_callback_insane_sp_witness :
    esp_stack_ptr_is_sane frameInsane.a1 = false ∧
    btEntries 4 (Boot.ErrorCallback esp_stack_ptr_is_sane memZero 4 frameInsane 0 false
      storeFresh).crash_data.bt = [0x400d1234] :=
  have hpc : _adjusted_pc frameInsane.pc = 0x400d1234 := by decide
  ⟨by decide,
   hpc ▸ (error_callback_insane_sp esp_stack_ptr_is_sane memZero 4 frameInsane 0 false
      storeFresh (by decide) (by decide) (by decide)).2.2.2 (by decide) (fun _ => by decide)⟩

/-- C9 fails on the code: crash capture with an insane stack pointer, run on a
fresh store and on a store that differs from it only in the snapshot of an
earlier crash, leaves different snapshots; entries 1 and 2 of the earlier
backtrace remain and are read back by the reporters after the new fault
address. -/
theorem error_callback_keeps_stale_backtrace :
    storeStale = { storeFresh with crash_data := storeStale.crash_data } ∧
    (Boot.ErrorCallback esp_stack_ptr_is_sane memZero 4 frameInsane 0 false
      storeFresh).crash_data.bt = [0x400d1234, 0, 0, 0] ∧
    (Boot.ErrorCallback esp_stack_ptr_is_sane memZero 4 frameInsane 0 false
      storeStale).crash_data.bt = [0x400d1234, 0x400d2222, 0x400d3333, 0] ∧
    (Boot.ErrorCallback esp_stack_ptr_is_sane memZero 4 frameInsane 0 false
      storeFresh).crash_data ≠
    (Boot.ErrorCallback esp_stack_ptr_is_sane memZero 4 frameInsane 0 false
      storeStale).crash_data ∧
    btEntries 4 (Boot.ErrorCallback esp_stack_ptr_is_sane memZero 4 frameInsane 0 false
      storeStale).crash_data.bt = [0x400d1234, 0x400d2222, 0x400d3333] := by
  simp +decide [btEntries, btEntriesFrom, Boot.ErrorCallback, btWalk, btLoop, btInit,
    frameInsane, storeFresh, storeStale, esp_stack_ptr_is_sane, _adjusted_pc,
    XtExcFrame.pc, XtExcFrame.a0, XtExcFrame.a1]

/-- C10: for every exception frame and every memory content, crash capture
(a total function, so it terminates) enters the loop body at most `M - 1`
times, assigns backtrace entries only at indices below `M`, keeps the size of
the backtrace array, and the backtrace read back has at most `M` entries. -/
theorem error_callback_bounded (sane : Nat → Bool) (mem : Nat → Nat) (M : Nat)
    (frame : XtExcFrame) (core_id : Nat) (is_abort : Bool) (s : boot_data_t) (hM : 0 < M) :
    (btWalk sane mem M frame s.crash_data.bt).iters ≤ M - 1 ∧
    (∀ k ∈ (btWalk sane mem M frame s.crash_data.bt).writes, k < M) ∧
    (Boot.ErrorCallback sane mem M frame core_id is_abort s).crash_data.bt
      = (btWalk sane mem M frame s.crash_data.bt).bt ∧
    (Boot.ErrorCallback sane mem M frame core_id is_abort s).crash_data.bt.length
      = s.crash_data.bt.length ∧
    (btEntries M
      (Boot.ErrorCallback sane mem M frame core_id is_abort s).crash_data.bt).length ≤ M := by
  have h := btLoop_bounds sane mem M M (btInit frame s.crash_data.bt) (by simp [btInit])
  refine ⟨?_, fun k hk => ?_, rfl, ?_, ?_⟩
  · have := h.1
    simpa [btWalk, btInit] using this
  · rcases h.2.1 k hk with hk | hk
    · have : k = 0 := by simpa [btInit] using hk
      omega
    · exact hk.2
  · show (btWalk sane mem M frame s.crash_data.bt).bt.length = _
    unfold btWalk
    rw [h.2.2]
    simp [btInit]
  · exact btEntriesFrom_length M _ M 0 (by omega)

/-- C10 on a stack whose chain of frames never ends, with four backtrace
levels: the loop body is entered three times, entries 0..3 are assigned, and
four addresses are read back. -/
theorem error_callback_bounded_witness :
    (btWalk esp_stack_ptr_is_sane memEndless 4 frameDeep storeStale.crash_data.bt).iters = 3 ∧
    (btWalk esp_stack_ptr_is_sane memEndless 4 frameDeep storeStale.crash_data.bt).writes
      = [0, 1, 2, 3] ∧
    btEntries 4 (Boot.ErrorCallback esp_stack_ptr_is_sane memEndless 4 frameDeep 1 false
      storeStale).crash_data.bt = [0x400d1234, 0x400d2000, 0x400d3000, 0x400d3000] ∧
    (btWalk esp_stack_ptr_is_sane memEndless 4 frameDeep storeStale.crash_data.bt).iters
      ≤ 4 - 1 ∧
    (btEntries 4 (Boot.ErrorCallback esp_stack_ptr_is_sane memEndless 4 frameDeep 1 false
      storeStale).crash_data.bt).length ≤ 4 :=
  ⟨by simp +decide [btWalk, btLoop, btInit, frameDeep, storeStale, memEndless,
      esp_stack_ptr_is_sane, _adjusted_pc, sub32, add32, XtExcFrame.pc, XtExcFrame.a0,
      XtExcFrame.a1],
   by simp +decide [btWalk, btLoop, btInit, frameDeep, storeStale, memEndless,
      esp_stack_ptr_is_sane, _adjusted_pc, sub32, add32, XtExcFrame.pc, XtExcFrame.a0,
      XtExcFrame.a1],
   by simp +decide [btEntries, btEntriesFrom, Boot.ErrorCallback, btWalk, btLoop, btInit,
      frameDeep, storeStale, memEndless, esp_stack_ptr_is_sane, _adjusted_pc, sub32, add32,
      XtExcFrame.pc, XtExcFrame.a0, XtExcFrame.a1],
   (error_callback_bounded esp_stack_ptr_is_sane memEndless 4 frameDeep 1 false storeStale
      (by decide)).1,
   (error_callback_bounded esp_stack_ptr_is_sane memEndless 4 frameDeep 1 false storeStale
      (by decide)).2.2.2.2⟩

/-! ## Shutdown coordinator -/

/-- Running two sequences of calls one after the other. -/
theorem runOps_append (a b : List CoordOp) :
    ∀ st : State, runOps (a ++ b) st
      = ((runOps b (runOps a st).1).1, (runOps a st).2 ++ (runOps b (runOps a st).1).2) := by
  induction a with
  | nil => intro st; simp [runOps]
  | cons op a ih => intro st; simp [runOps, ih, List.append_assoc]

/-- While the countdown is above `k`, `k` ticks only count down. -/
theorem runOps_ticks_counting (k : Nat) :
    ∀ st : State, k < st.MyBoot.m_restart_timer →
      runOps (List.replicate k CoordOp.Tick) st
        = ({ st with MyBoot := { st.MyBoot with m_restart_timer := st.MyBoot.m_restart_timer - k } },
           []) := by
  induction k with
  | zero => intro st _; simp [runOps]
  | succ k ih =>
    intro st h
    have hpos : st.MyBoot.m_restart_timer > 0 := by omega
    have h1 : ¬ (st.MyBoot.m_restart_timer - 1 = 0) := by omega
    have hstep : CoordOp.Tick.step st
        = ({ st with MyBoot := { st.MyBoot with m_restart_timer := st.MyBoot.m_restart_timer - 1 } },
           []) := by
      simp only [CoordOp.step, Boot.Ticker1, hpos, if_true, h1, if_false]
      split_ifs <;> rfl
    rw [List.replicate_succ, runOps, hstep]
    simp only
    rw [ih _ (by simp only; omega)]
    simp only [List.append_nil, Nat.sub_sub, Nat.add_comm 1 k]

/-- In the idle state ticks do nothing. -/
theorem runOps_ticks_idle (m : Nat) :
    ∀ st : State, st.MyBoot.m_restart_timer = 0 →
      runOps (List.replicate m CoordOp.Tick) st = (st, []) := by
  induction m with
  | zero => intro st _; simp [runOps]
  | succ m ih =>
    intro st h
    have hstep : CoordOp.Tick.step st = (st, []) := by
      simp [CoordOp.step, Boot.Ticker1, h]
    rw [List.replicate_succ, runOps, hstep]
    simp only
    rw [ih st h]
    rfl

/-- The tick that takes the countdown from 1 to 0 announces the shutdown. -/
theorem tick_last (st : State) (h : st.MyBoot.m_restart_timer = 1) :
    Boot.Ticker1 st
      = ({ st with MyBoot := { st.MyBoot with m_restart_timer := 0 } }, [shutdownSignal]) := by
  simp [Boot.Ticker1, h, shutdownSignal]

/-- C11: `Boot::Restart(false)` sets the deliberate-reset flag, leaves
`pending_count = 0` and `countdown_seconds = 60`, and announces
`system.shuttingdown` with `boot_shuttingdown_done` as completion callback
(then registers the tick listener). The callback sets the countdown to 2 when
`pending_count` is 0, in particular when it runs right after the request, and
leaves the state unchanged when `pending_count` is not 0, for instance after
one `RestartPending`. -/
theorem restart_soft_announces (st : State) :
    (Boot.Restart false st).1.boot_data.soft_reset = true ∧
    (Boot.Restart false st).1.MyBoot.m_restart_pending = 0 ∧
    (Boot.Restart false st).1.MyBoot.m_restart_timer = 60 ∧
    (Boot.Restart false st).2
      = [Effect.SignalEvent EventName.system_shuttingdown Callback.boot_shuttingdown_done,
         Effect.RegisterEvent EventName.ticker_1 Callback.Ticker1] ∧
    (boot_shuttingdown_done (Boot.Restart false st).1).MyBoot.m_restart_timer = 2 ∧
    (boot_shuttingdown_done (Boot.RestartPending (Boot.Restart false st).1)).MyBoot.m_restart_timer
      = 60 ∧
    (∀ st1 : State, st1.MyBoot.m_restart_pending = 0 →
      (boot_shuttingdown_done st1).MyBoot.m_restart_timer = 2 ∧
      (boot_shuttingdown_done st1).MyBoot.m_restart_pending = 0) ∧
    (∀ st1 : State, st1.MyBoot.m_restart_pending ≠ 0 → boot_shuttingdown_done st1 = st1) := by
  refine ⟨rfl, rfl, rfl, rfl, ?_, ?_, fun st1 h => ?_, fun st1 h => ?_⟩
  · simp [boot_shuttingdown_done, Boot.Restart]
  · have hw : wrap_i32 1 ≠ 0 := by decide
    simp [boot_shuttingdown_done, Boot.Restart, Boot.RestartPending, Boot.SetSoftReset, hw]
  · simp [boot_shuttingdown_done, h]
  · simp [boot_shuttingdown_done, h]

/-- C11 at a concrete state: a restart requested while idle, the callback
running with nothing pending and with one subsystem pending. -/
theorem restart_soft_announces_witness :
    (boot_shuttingdown_done (Boot.Restart false (coordState 0 0)).1).MyBoot.m_restart_timer = 2 ∧
    boot_shuttingdown_done (coordState 60 1) = coordState 60 1 :=
  ⟨((restart_soft_announces (coordState 0 0)).2.2.2.2.2.2.1
      (Boot.Restart false (coordState 0 0)).1 rfl).1,
   (restart_soft_announces (coordState 0 0)).2.2.2.2.2.2.2 (coordState 60 1) (by decide)⟩

/-- C12 as stated fails when the countdown is at 1: `RestartReady` with one
subsystem pending sets the countdown to 2, which is longer than before and is
not `min(1, 2)`. -/
theorem restart_ready_counterexample :
    (coordState 1 1).MyBoot.m_restart_timer = 1 ∧
    (coordState 1 1).MyBoot.m_restart_pending = 1 ∧
    (Boot.RestartReady (coordState 1 1)).MyBoot.m_restart_pending = 0 ∧
    (Boot.RestartReady (coordState 1 1)).MyBoot.m_restart_timer = 2 ∧
    (Boot.RestartReady (coordState 1 1)).MyBoot.m_restart_timer
      ≠ min (coordState 1 1).MyBoot.m_restart_timer 2 ∧
    (coordState 1 1).MyBoot.m_restart_timer
      < (Boot.RestartReady (coordState 1 1)).MyBoot.m_restart_timer := by
  decide

/-- C12 (amended): with `pending_count = 1`, `RestartReady` leaves
`pending_count = 0` and `countdown_seconds = 2` whatever the countdown was: it
is shortened when it was above 2, unchanged when it was 2, and raised to 2 when
it was 1. When the decremented `pending_count` is not 0 the countdown is
unchanged. -/
theorem restart_ready_sets_two (st : State) :
    (st.MyBoot.m_restart_pending = 1 →
      (Boot.RestartReady st).MyBoot.m_restart_pending = 0 ∧
      (Boot.RestartReady st).MyBoot.m_restart_timer = 2 ∧
      (2 < st.MyBoot.m_restart_timer →
        (Boot.RestartReady st).MyBoot.m_restart_timer < st.MyBoot.m_restart_timer) ∧
      (st.MyBoot.m_restart_timer = 2 →
        (Boot.RestartReady st).MyBoot.m_restart_timer = st.MyBoot.m_restart_timer) ∧
      (st.MyBoot.m_restart_timer = 1 →
        st.MyBoot.m_restart_timer < (Boot.RestartReady st).MyBoot.m_restart_timer)) ∧
    (wrap_i32 (st.MyBoot.m_restart_pending - 1) ≠ 0 →
      (Boot.RestartReady st).MyBoot.m_restart_timer = st.MyBoot.m_restart_timer ∧
      (Boot.RestartReady st).MyBoot.m_restart_pending
        = wrap_i32 (st.MyBoot.m_restart_pending - 1)) := by
  refine ⟨fun h => ?_, fun h => ?_⟩
  · have hw : wrap_i32 (st.MyBoot.m_restart_pending - 1) = 0 := by rw [h]; decide
    have ht : (Boot.RestartReady st).MyBoot.m_restart_timer = 2 := by
      simp [Boot.RestartReady, hw]
    refine ⟨by simp [Boot.RestartReady, hw], ht, fun h2 => ?_, fun h2 => ?_, fun h2 => ?_⟩
    · rw [ht]; exact h2
    · rw [ht, h2]
    · rw [ht, h2]; decide
  · simp [Boot.RestartReady, h]

/-- C12 (amended) at concrete states: the last acknowledgement with 45 seconds
left, and an acknowledgement that leaves one subsystem pending. -/
theorem restart_ready_sets_two_witness :
    (Boot.RestartReady (coordState 45 1)).MyBoot.m_restart_pending = 0 ∧
    (Boot.RestartReady (coordState 45 1)).MyBoot.m_restart_timer = 2 ∧
    (Boot.RestartReady (coordState 45 2)).MyBoot.m_restart_timer = 45 :=
  ⟨((restart_ready_sets_two (coordState 45 1)).1 rfl).1,
   ((restart_ready_sets_two (coordState 45 1)).1 rfl).2.1,
   ((restart_ready_sets_two (coordState 45 2)).2 (by decide)).1⟩

/-- C16: a tick with `countdown_seconds = c > 0` leaves `c - 1` and announces
`system.shutdown` exactly when `c = 1`; a tick with `countdown_seconds = 0`
changes nothing and announces nothing; a tick never changes `pending_count`
nor the store. Hence a countdown at `n > 0` that only ticks follow is followed
by exactly one `system.shutdown`, made by the `n`-th tick: the first `n - 1`
ticks announce nothing, the first `n` ticks announce it once and leave the
countdown at 0, and any number of further ticks add nothing. -/
theorem ticker_counts_down (st : State) :
    (0 < st.MyBoot.m_restart_timer →
      (Boot.Ticker1 st).1.MyBoot.m_restart_timer = st.MyBoot.m_restart_timer - 1 ∧
      (st.MyBoot.m_restart_timer = 1 → (Boot.Ticker1 st).2 = [shutdownSignal]) ∧
      (st.MyBoot.m_restart_timer ≠ 1 → (Boot.Ticker1 st).2 = [])) ∧
    (st.MyBoot.m_restart_timer = 0 → Boot.Ticker1 st = (st, [])) ∧
    (Boot.Ticker1 st).1.MyBoot.m_restart_pending = st.MyBoot.m_restart_pending ∧
    (Boot.Ticker1 st).1.boot_data = st.boot_data ∧
    (∀ n : Nat, 0 < n → st.MyBoot.m_restart_timer = n →
      (runOps (List.replicate (n - 1) CoordOp.Tick) st).2 = [] ∧
      ∀ m : Nat,
        (runOps (List.replicate (n + m) CoordOp.Tick) st).2 = [shutdownSignal] ∧
        (runOps (List.replicate (n + m) CoordOp.Tick) st).1.MyBoot.m_restart_timer = 0) := by
  refine ⟨fun h => ⟨?_, fun h1 => ?_, fun h1 => ?_⟩, fun h => ?_, ?_, ?_, fun n hn ht => ?_⟩
  · unfold Boot.Ticker1
    rw [if_pos h]
    dsimp only
    split_ifs <;> rfl
  · rw [tick_last st h1]
  · unfold Boot.Ticker1
    rw [if_pos h]
    dsimp only
    have h0 : ¬ (st.MyBoot.m_restart_timer - 1 = 0) := by omega
    rw [if_neg h0]
    split_ifs <;> rfl
  · simp [Boot.Ticker1, h]
  · unfold Boot.Ticker1
    dsimp only
    split_ifs <;> rfl
  · unfold Boot.Ticker1
    dsimp only
    split_ifs <;> rfl
  · have hpre := runOps_ticks_counting (n - 1) st (by omega)
    refine ⟨by rw [hpre], fun m => ?_⟩
    have hsplit : List.replicate (n + m) CoordOp.Tick
        = List.replicate (n - 1) CoordOp.Tick
          ++ (CoordOp.Tick :: List.replicate m CoordOp.Tick) := by
      rw [← List.replicate_succ, ← List.replicate_add]
      congr 1
      omega
    have hlast := tick_last
      { st with MyBoot :=
          { st.MyBoot with m_restart_timer := st.MyBoot.m_restart_timer - (n - 1) } }
      (by simp only; omega)
    rw [hsplit, runOps_append, hpre]
    simp only [runOps, CoordOp.step, hlast, List.nil_append]
    rw [runOps_ticks_idle m _ rfl]
    exact ⟨rfl, rfl⟩

/-- C16 at a concrete state with the countdown at 3: two ticks announce
nothing, three ticks announce the shutdown once, and so do five. -/
theorem ticker_counts_down_witness :
    (runOps (List.replicate (3 - 1) CoordOp.Tick) (coordState 3 0)).2 = [] ∧
    (runOps (List.replicate (3 + 0) CoordOp.Tick) (coordState 3 0)).2 = [shutdownSignal] ∧
    (runOps (List.replicate (3 + 2) CoordOp.Tick) (coordState 3 0)).2 = [shutdownSignal] ∧
    (Boot.Ticker1 (coordState 3 0)).1.MyBoot.m_restart_timer = 3 - 1 :=
  ⟨((ticker_counts_down (coordState 3 0)).2.2.2.2 3 (by decide) rfl).1,
   (((ticker_counts_down (coordState 3 0)).2.2.2.2 3 (by decide) rfl).2 0).1,
   (((ticker_counts_down (coordState 3 0)).2.2.2.2 3 (by decide) rfl).2 2).1,
   ((ticker_counts_down (coordState 3 0)).1 (by decide)).1⟩

/-- From the idle state, calls other than the announcement callback keep the
coordinator idle and silent as long as no `RestartReady` brings the pending
count to 0. -/
theorem runOps_idle (ops : List CoordOp) :
    ∀ st : State, st.MyBoot.m_restart_timer = 0 →
      CoordOp.ShuttingdownDone ∉ ops → ackReachesZero ops st = false →
      (runOps ops st).1.MyBoot.m_restart_timer = 0 ∧ (runOps ops st).2 = [] := by
  induction ops with
  | nil => intro st h _ _; exact ⟨h, rfl⟩
  | cons op ops ih =>
    intro st h hmem hz
    have hrest : CoordOp.ShuttingdownDone ∉ ops := fun hc => hmem (List.mem_cons_of_mem _ hc)
    have hop : op ≠ CoordOp.ShuttingdownDone := fun hc => hmem (hc ▸ List.mem_cons_self _ _)
    simp only [ackReachesZero, Bool.or_eq_false_iff, Bool.and_eq_false_iff,
      decide_eq_false_iff_not] at hz
    obtain ⟨hz1, hz2⟩ := hz
    have hstep : (op.step st).1.MyBoot.m_restart_timer = 0 ∧ (op.step st).2 = [] := by
      cases op with
      | RegisterPending => exact ⟨h, rfl⟩
      | Acknowledge =>
        have hne : wrap_i32 (st.MyBoot.m_restart_pending - 1) ≠ 0 := by
          rcases hz1 with hz1 | hz1
          · exact absurd rfl hz1
          · intro hw
            apply hz1
            simp [CoordOp.step, Boot.RestartReady, hw]
        simp [CoordOp.step, Boot.RestartReady, hne, h]
      | Tick => simp [CoordOp.step, Boot.Ticker1, h]
      | ShuttingdownDone => exact absurd rfl hop
    have hi := ih (op.step st).1 hstep.1 hrest hz2
    simp only [runOps]
    exact ⟨hi.1, by rw [hstep.2, hi.2]; rfl⟩

/-- A sequence without `RestartReady` calls has none that reaches 0. -/
theorem ackReachesZero_of_not_mem (ops : List CoordOp) :
    ∀ st : State, CoordOp.Acknowledge ∉ ops → ackReachesZero ops st = false := by
  induction ops with
  | nil => intro st _; rfl
  | cons op ops ih =>
    intro st hmem
    have hrest : CoordOp.Acknowledge ∉ ops := fun hc => hmem (List.mem_cons_of_mem _ hc)
    have hop : op ≠ CoordOp.Acknowledge := fun hc => hmem (hc ▸ List.mem_cons_self _ _)
    simp [ackReachesZero, hop, ih _ hrest]

/-- Calls of `RestartPending` alone change neither the countdown nor the
store, and announce nothing. -/
theorem runOps_pending_only (ops : List CoordOp) :
    ∀ st : State, (∀ op ∈ ops, op = CoordOp.RegisterPending) →
      (runOps ops st).1.MyBoot.m_restart_timer = st.MyBoot.m_restart_timer ∧
      (runOps ops st).2 = [] := by
  induction ops with
  | nil => intro st _; exact ⟨rfl, rfl⟩
  | cons op ops ih =>
    intro st h
    have hop : op = CoordOp.RegisterPending := h op (List.mem_cons_self _ _)
    subst hop
    have hi := ih (Boot.RestartPending st) (fun o ho => h o (List.mem_cons_of_mem _ ho))
    simp only [runOps, CoordOp.step, List.nil_append]
    exact ⟨hi.1, hi.2⟩

/-- C20 as stated fails: from the idle state, one `RestartPending` followed by
one `RestartReady` (a balanced pair, no restart requested) leaves
`countdown_seconds = 2`, and `IsShuttingDown()` is true. -/
theorem idle_acknowledge_counterexample :
    (coordState 0 0).MyBoot.m_restart_timer = 0 ∧
    Boot.IsShuttingDown (coordState 0 0) = false ∧
    (runOps [CoordOp.RegisterPending, CoordOp.Acknowledge]
      (coordState 0 0)).1.MyBoot.m_restart_timer = 2 ∧
    Boot.IsShuttingDown
      (runOps [CoordOp.RegisterPending, CoordOp.Acknowledge] (coordState 0 0)).1 = true := by
  decide

/-- C20 (amended): from a state with `countdown_seconds = 0`, every sequence
of `RestartPending`, `RestartReady` and tick calls in which no `RestartReady`
brings `pending_count` to 0 leaves `countdown_seconds = 0` and
`IsShuttingDown()` false, and announces nothing. A `RestartReady` that brings
`pending_count` to 0 sets `countdown_seconds` to 2 whatever the state, the idle
state included, so that `IsShuttingDown()` is true afterwards. -/
theorem idle_stays_idle (st : State) (ops : List CoordOp)
    (hidle : st.MyBoot.m_restart_timer = 0)
    (hops : CoordOp.ShuttingdownDone ∉ ops)
    (hack : ackReachesZero ops st = false) :
    (runOps ops st).1.MyBoot.m_restart_timer = 0 ∧
    Boot.IsShuttingDown (runOps ops st).1 = false ∧
    (runOps ops st).2 = [] ∧
    ∀ st1 : State, wrap_i32 (st1.MyBoot.m_restart_pending - 1) = 0 →
      (Boot.RestartReady st1).MyBoot.m_restart_timer = 2 ∧
      Boot.IsShuttingDown (Boot.RestartReady st1) = true := by
  obtain ⟨h1, h2⟩ := runOps_idle ops st hidle hops hack
  refine ⟨h1, by simp [Boot.IsShuttingDown, h1], h2, fun st1 hw => ?_⟩
  simp [Boot.RestartReady, Boot.IsShuttingDown, hw]

/-- C20 (amended) at a concrete idle state: two registrations, one
acknowledgement and two ticks. -/
theorem idle_stays_idle_witness :
    (runOps [CoordOp.RegisterPending, CoordOp.RegisterPending, CoordOp.Tick,
      CoordOp.Acknowledge, CoordOp.Tick] (coordState 0 0)).1.MyBoot.m_restart_timer = 0 ∧
    Boot.IsShuttingDown (runOps [CoordOp.RegisterPending, CoordOp.RegisterPending, CoordOp.Tick,
      CoordOp.Acknowledge, CoordOp.Tick] (coordState 0 0)).1 = false :=
  have h := idle_stays_idle (coordState 0 0)
    [CoordOp.RegisterPending, CoordOp.RegisterPending, CoordOp.Tick, CoordOp.Acknowledge,
      CoordOp.Tick] rfl (by decide) (by decide)
  ⟨h.1, h.2.1⟩

/-- From a running countdown, without `RestartReady` calls, the shutdown is
announced once the ticks outnumber the countdown plus the number of runs of
the `system.shuttingdown` completion callback. -/
theorem shutdown_within (ops : List CoordOp) :
    ∀ st : State, 0 < st.MyBoot.m_restart_timer → CoordOp.Acknowledge ∉ ops →
      st.MyBoot.m_restart_timer + ops.count CoordOp.ShuttingdownDone ≤ ops.count CoordOp.Tick →
      shutdownSignal ∈ (runOps ops st).2 := by
  induction ops with
  | nil =>
    intro st h _ hc
    simp at hc
    omega
  | cons op ops ih =>
    intro st h hmem hc
    have hrest : CoordOp.Acknowledge ∉ ops := fun hx => hmem (List.mem_cons_of_mem _ hx)
    have hop : op ≠ CoordOp.Acknowledge := fun hx => hmem (hx ▸ List.mem_cons_self _ _)
    simp only [runOps]
    cases op with
    | Acknowledge => exact absurd rfl hop
    | RegisterPending =>
      simp only [List.count_cons, beq_iff_eq] at hc
      simp only [CoordOp.step, List.nil_append]
      exact ih _ h hrest (by simpa using hc)
    | ShuttingdownDone =>
      simp only [List.count_cons, beq_iff_eq] at hc
      simp only [CoordOp.step, List.nil_append]
      have hc1 : st.MyBoot.m_restart_timer + (ops.count CoordOp.ShuttingdownDone + 1)
          ≤ ops.count CoordOp.Tick := by simpa using hc
      by_cases hp : st.MyBoot.m_restart_pending = 0
      · refine ih _ ?_ hrest ?_
        · simp [boot_shuttingdown_done, hp]
        · simp only [boot_shuttingdown_done, hp, if_true]
          omega
      · refine ih _ ?_ hrest ?_
        · simp only [boot_shuttingdown_done, hp, if_false]; exact h
        · simp only [boot_shuttingdown_done, hp, if_false]
          omega
    | Tick =>
      simp only [List.count_cons, beq_iff_eq] at hc
      have hc1 : st.MyBoot.m_restart_timer + ops.count CoordOp.ShuttingdownDone
          ≤ ops.count CoordOp.Tick + 1 := by simpa using hc
      by_cases h1 : st.MyBoot.m_restart_timer = 1
      · simp only [CoordOp.step, tick_last st h1]
        exact List.mem_append_left _ (List.mem_singleton.mpr rfl)
      · have hpre := runOps_ticks_counting 1 st (by omega)
        simp only [List.replicate, runOps, List.append_nil] at hpre
        have hs : CoordOp.Tick.step st
            = ({ st with MyBoot :=
                  { st.MyBoot with m_restart_timer := st.MyBoot.m_restart_timer - 1 } }, []) := by
          rw [← hpre]
        rw [hs]
        simp only [List.nil_append]
        exact ih _ (by simp only; omega) hrest (by simp only; omega)

/-- C13 as stated fails for the interleaving in which the announcement
callback runs after the 59th tick: it finds nothing pending and sets the
countdown from 1 back to 2, so that the 60th tick announces nothing and leaves
the countdown at 1. -/
theorem restart_drain_counterexample :
    CoordOp.Acknowledge ∉
      List.replicate 59 CoordOp.Tick ++ [CoordOp.ShuttingdownDone, CoordOp.Tick] ∧
    (List.replicate 59 CoordOp.Tick ++ [CoordOp.ShuttingdownDone, CoordOp.Tick]).count
      CoordOp.Tick = 60 ∧
    (runOps (List.replicate 59 CoordOp.Tick ++ [CoordOp.ShuttingdownDone, CoordOp.Tick])
      (Boot.Restart false (coordState 0 0)).1).2 = [] ∧
    shutdownSignal ∉
      (runOps (List.replicate 59 CoordOp.Tick ++ [CoordOp.ShuttingdownDone, CoordOp.Tick])
        (Boot.Restart false (coordState 0 0)).1).2 ∧
    (runOps (List.replicate 59 CoordOp.Tick ++ [CoordOp.ShuttingdownDone, CoordOp.Tick])
      (Boot.Restart false (coordState 0 0)).1).1.MyBoot.m_restart_timer = 1 := by
  decide

/-- C13 (amended): after `Boot::Restart(false)`, for every interleaving of
`RestartPending` calls, runs of the announcement callback and ticks that
contains no `RestartReady` call, `system.shutdown` is announced no later than
tick number 60 plus the number of callback runs (the 61st tick when the
callback runs once, the 60th when it does not run); it is announced no later
than the 60th tick when the callback runs once and before the first tick. Once
the countdown is 0 it stays 0, and nothing more is announced, under ticks and
`RestartPending` calls. -/
theorem restart_drains_within (st : State) (ops : List CoordOp)
    (hack : CoordOp.Acknowledge ∉ ops) :
    (60 + ops.count CoordOp.ShuttingdownDone ≤ ops.count CoordOp.Tick →
      shutdownSignal ∈ (runOps ops (Boot.Restart false st).1).2) ∧
    (∀ pre : List CoordOp, (∀ op ∈ pre, op = CoordOp.RegisterPending) →
      CoordOp.ShuttingdownDone ∉ ops → 60 ≤ ops.count CoordOp.Tick →
      shutdownSignal ∈
        (runOps (pre ++ CoordOp.ShuttingdownDone :: ops) (Boot.Restart false st).1).2) ∧
    (∀ st1 : State, st1.MyBoot.m_restart_timer = 0 → CoordOp.ShuttingdownDone ∉ ops →
      (runOps ops st1).1.MyBoot.m_restart_timer = 0 ∧ (runOps ops st1).2 = []) := by
  refine ⟨fun h => ?_, fun pre hpre hcb h => ?_, fun st1 h0 hcb => ?_⟩
  · exact shutdown_within ops _ (by simp [Boot.Restart]) hack (by simpa [Boot.Restart] using h)
  · obtain ⟨ht, he⟩ := runOps_pending_only pre (Boot.Restart false st).1 hpre
    have ht60 : (runOps pre (Boot.Restart false st).1).1.MyBoot.m_restart_timer = 60 := by
      rw [ht]; rfl
    rw [runOps_append, he]
    simp only [runOps, CoordOp.step, List.nil_append]
    have hzero : ops.count CoordOp.ShuttingdownDone = 0 := List.count_eq_zero.mpr hcb
    refine shutdown_within ops _ ?_ hack ?_
    · unfold boot_shuttingdown_done
      split_ifs
      · simp
      · rw [ht60]; decide
    · rw [hzero]
      unfold boot_shuttingdown_done
      split_ifs
      · simp only; omega
      · rw [ht60]; omega
  · exact runOps_idle ops st1 h0 hcb (ackReachesZero_of_not_mem ops st1 hack)

/-- C13 (amended) on a concrete interleaving: a restart requested while idle,
one subsystem registers and never acknowledges, the callback runs, and 60
ticks follow. -/
theorem restart_drains_within_witness :
    shutdownSignal ∈
      (runOps ([CoordOp.RegisterPending] ++ CoordOp.ShuttingdownDone
          :: List.replicate 60 CoordOp.Tick)
        (Boot.Restart false (coordState 0 0)).1).2 :=
  (restart_drains_within (coordState 0 0) (List.replicate 60 CoordOp.Tick) (by decide)).2.1
    [CoordOp.RegisterPending] (by decide) (by decide) (by decide)

/-! ## Return-address adjustment -/

/-- The test `x & 0x80000000` of the macro reads bit 31 of `x`. -/
theorem and_bit31_ne_zero_iff (x : Nat) : x &&& 0x80000000 ≠ 0 ↔ x.testBit 31 = true := by
  have h31 : (0x80000000 : Nat) = 2 ^ 31 := by norm_num
  rw [h31]
  constructor
  · intro h
    by_contra hb
    apply h
    apply Nat.eq_of_testBit_eq
    intro i
    rw [Nat.testBit_and, Nat.testBit_two_pow, Nat.zero_testBit]
    by_cases hi : 31 = i
    · subst hi
      simp [Bool.eq_false_iff.mpr hb]
    · simp [hi]
  · intro hb h
    have h2 : (x &&& 2 ^ 31).testBit 31 = (0 : Nat).testBit 31 := by rw [h]
    rw [Nat.testBit_and, hb, Nat.testBit_two_pow_self, Nat.zero_testBit] at h2
    exact Bool.noConfusion h2

/-- A number below 2^31 has bit 31 clear. -/
theorem and_bit31_of_lt (x : Nat) (h : x < 2 ^ 31) : x &&& 0x80000000 = 0 := by
  by_contra hne
  have hb := (and_bit31_ne_zero_iff x).mp hne
  have := Nat.testBit_lt_two_pow h
  rw [hb] at this
  exact Bool.noConfusion this

/-- The value of the macro's second branch as arithmetic: the low 30 bits of
`pc` plus 2^30. -/
theorem and_or_code_base (pc : Nat) :
    (pc &&& 0x3fffffff) ||| 0x40000000 = 2 ^ 30 + pc % 2 ^ 30 := by
  have h1 : (0x3fffffff : Nat) = 2 ^ 30 - 1 := by norm_num
  have h2 : (0x40000000 : Nat) = 2 ^ 30 * 1 := by norm_num
  rw [h1, Nat.and_pow_two_sub_one_eq_mod, h2, Nat.or_comm,
    ← Nat.mul_add_lt_is_or (Nat.mod_lt _ (by norm_num)) 1, Nat.mul_one]

/-- C18: `_adjusted_pc(pc)` is `pc` when bit 31 of `pc` is clear; when bit 31
is set it is `(pc & 0x3fffffff) | 0x40000000`, which lies in
`0x40000000..0x7fffffff` and has the low 30 bits of `pc`. The result never has
bit 31 set, and adjusting twice is the same as adjusting once. -/
theorem adjusted_pc_spec (pc : Nat) :
    (pc &&& 0x80000000 ≠ 0 ↔ pc.testBit 31 = true) ∧
    (pc &&& 0x80000000 = 0 → _adjusted_pc pc = pc) ∧
    (pc &&& 0x80000000 ≠ 0 →
      _adjusted_pc pc = (pc &&& 0x3fffffff) ||| 0x40000000 ∧
      0x40000000 ≤ _adjusted_pc pc ∧ _adjusted_pc pc ≤ 0x7fffffff ∧
      _adjusted_pc pc &&& 0x3fffffff = pc &&& 0x3fffffff ∧
      _adjusted_pc pc % 2 ^ 30 = pc % 2 ^ 30) ∧
    _adjusted_pc pc &&& 0x80000000 = 0 ∧
    (_adjusted_pc pc).testBit 31 = false ∧
    _adjusted_pc (_adjusted_pc pc) = _adjusted_pc pc := by
  have hclear : ∀ y : Nat, y &&& 0x80000000 = 0 → _adjusted_pc y = y := by
    intro y h
    simp [_adjusted_pc, h]
  have hset : pc &&& 0x80000000 ≠ 0 → _adjusted_pc pc = 2 ^ 30 + pc % 2 ^ 30 := by
    intro h
    rw [← and_or_code_base]
    simp [_adjusted_pc, h]
  have hres : _adjusted_pc pc &&& 0x80000000 = 0 := by
    by_cases h : pc &&& 0x80000000 = 0
    · rw [hclear pc h]; exact h
    · rw [hset h]
      exact and_bit31_of_lt _ (by omega)
  have hmask : ∀ x : Nat, x &&& 0x3fffffff = x % 2 ^ 30 := by
    intro x
    have h1 : (0x3fffffff : Nat) = 2 ^ 30 - 1 := by norm_num
    rw [h1, Nat.and_pow_two_sub_one_eq_mod]
  refine ⟨and_bit31_ne_zero_iff pc, hclear pc, fun h => ⟨?_, ?_, ?_, ?_, ?_⟩, hres, ?_, ?_⟩
  · simp [_adjusted_pc, h]
  · rw [hset h]; omega
  · rw [hset h]; omega
  · rw [hmask, hmask, hset h]; omega
  · rw [hset h]; omega
  · by_contra hb
    exact ((and_bit31_ne_zero_iff _).mpr (by simpa using hb)) hres
  · exact hclear _ hres

/-- C18 at two concrete addresses: a windowed-call return address with bit 31
set, and a plain code address. -/
theorem adjusted_pc_spec_witness :
    _adjusted_pc 0x800d2003 = (0x800d2003 &&& 0x3fffffff) ||| 0x40000000 ∧
    _adjusted_pc 0x800d2003 ≤ 0x7fffffff ∧
    _adjusted_pc 0x400d1234 = 0x400d1234 :=
  ⟨((adjusted_pc_spec 0x800d2003).2.2.1 (by decide)).1,
   ((adjusted_pc_spec 0x800d2003).2.2.1 (by decide)).2.2.1,
   (adjusted_pc_spec 0x400d1234).2.1 (by decide)⟩

/-! ## Stack reads of the crash capture -/

/-- Every address the backtrace loop reads satisfies any property that holds of
`sp - 16` and `sp - 12` for the stack pointers `sp` passing the check. -/
theorem btLoop_reads (sane : Nat → Bool) (mem : Nat → Nat) (M : Nat) (P : Nat → Prop)
    (hP : ∀ sp : Nat, sane sp = true → P (add32 (sub32 sp 0x10) 4) ∧ P (sub32 sp 0x10)) :
    ∀ (n : Nat) (s : BtWalk), M - s.i ≤ n → (∀ a ∈ s.reads, P a) →
      ∀ a ∈ (btLoop sane mem M s).reads, P a := by
  intro n
  induction n with
  | zero =>
    intro s hn hs
    have hM : ¬ (s.i + 1 < M) := by omega
    rw [btLoop, dif_neg hM]
    exact hs
  | succ n ih =>
    intro s hn hs
    rw [btLoop]
    dsimp only
    split_ifs with hM hsane hp
    · exact hs
    · have hsp : sane s.sp = true := by simpa using hsane
      intro a ha
      rcases List.mem_append.mp ha with ha | ha
      · exact hs a ha
      · rcases List.mem_cons.mp ha with ha | ha
        · rw [ha]; exact (hP s.sp hsp).1
        · rw [List.mem_singleton.mp ha]; exact (hP s.sp hsp).2
    · have hsp : sane s.sp = true := by simpa using hsane
      refine ih _ (by simp only; omega) ?_
      intro a ha
      rcases List.mem_append.mp ha with ha | ha
      · exact hs a ha
      · rcases List.mem_cons.mp ha with ha | ha
        · rw [ha]; exact (hP s.sp hsp).1
        · rw [List.mem_singleton.mp ha]; exact (hP s.sp hsp).2
    · exact hs

/-- For a stack pointer accepted by the IDF check, `sp - 16` and `sp - 12` do
not wrap and lie in the stack region. -/
theorem sane_read_addresses (sp : Nat) (h : esp_stack_ptr_is_sane sp = true) :
    sub32 sp 0x10 = sp - 16 ∧ add32 (sub32 sp 0x10) 4 = sp - 12 ∧
    0x3ffae000 ≤ sp - 16 ∧ sp - 12 < 0x3ffffff0 := by
  simp only [esp_stack_ptr_is_sane, Bool.not_eq_true', Bool.or_eq_false_iff,
    decide_eq_false_iff_not] at h
  obtain ⟨⟨h1, h2⟩, -⟩ := h
  simp only [sub32, add32]
  omega

/-- C17: every stack read of the crash capture is at `sp - 12` or `sp - 16`
(32-bit arithmetic) for a stack pointer `sp` that passed the check; with the
IDF check these addresses do not wrap and lie inside the stack region. From
any loop state, a stack pointer that fails the check ends the loop with no
further read or write, and a loaded return address below `0x40000000` ends it
right after the entry of that iteration has been stored. -/
theorem stack_walk_reads_checked (sane : Nat → Bool) (mem : Nat → Nat) (M : Nat)
    (frame : XtExcFrame) (bt : List Nat) :
    (∀ a ∈ (btWalk sane mem M frame bt).reads,
      ∃ sp : Nat, sane sp = true ∧ (a = add32 (sub32 sp 0x10) 4 ∨ a = sub32 sp 0x10)) ∧
    (∀ a ∈ (btWalk esp_stack_ptr_is_sane mem M frame bt).reads,
      ∃ sp : Nat, esp_stack_ptr_is_sane sp = true ∧ (a = sp - 12 ∨ a = sp - 16) ∧
        0x3ffae000 ≤ a ∧ a < 0x3ffffff0) ∧
    (∀ s : BtWalk, sane s.sp = false →
      (btLoop sane mem M s).reads = s.reads ∧ (btLoop sane mem M s).writes = s.writes ∧
      (btLoop sane mem M s).bt = s.bt) ∧
    (∀ s : BtWalk, s.i + 1 < M → sane s.sp = true → mem (sub32 s.sp 0x10) < 0x40000000 →
      (btLoop sane mem M s).reads = s.reads ++ [add32 (sub32 s.sp 0x10) 4, sub32 s.sp 0x10] ∧
      (btLoop sane mem M s).writes = s.writes ++ [s.i + 1] ∧
      (btLoop sane mem M s).bt = s.bt.set (s.i + 1) (_adjusted_pc (sub32 s.pc 3))) := by
  refine ⟨?_, ?_, fun s hs => ?_, fun s hM hs hp => ?_⟩
  · exact btLoop_reads sane mem M _ (fun sp hsp => ⟨⟨sp, hsp, Or.inl rfl⟩, ⟨sp, hsp, Or.inr rfl⟩⟩)
      M (btInit frame bt) (by simp [btInit]) (by simp [btInit])
  · refine btLoop_reads esp_stack_ptr_is_sane mem M _ (fun sp hsp => ?_)
      M (btInit frame bt) (by simp [btInit]) (by simp [btInit])
    obtain ⟨h1, h2, h3, h4⟩ := sane_read_addresses sp hsp
    refine ⟨⟨sp, hsp, Or.inl h2, ?_, ?_⟩, ⟨sp, hsp, Or.inr h1, ?_, ?_⟩⟩ <;> omega
  · rw [btLoop_insane sane mem M s hs]
    split_ifs <;> exact ⟨rfl, rfl, rfl⟩
  · rw [btLoop]
    dsimp only
    rw [dif_pos hM, if_neg (by simp [hs]), if_pos hp]
    exact ⟨rfl, rfl, rfl⟩

/-- C17 on a concrete stack: the first frame is sane and its saved return
address is 0, so the walk reads `sp - 12` and `sp - 16` once and stops. -/
theorem stack_walk_reads_checked_witness :
    (btWalk esp_stack_ptr_is_sane memZero 4 frameDeep [0, 0, 0, 0]).reads
      = [0x3ffb0004, 0x3ffb0000] ∧
    (∀ a ∈ (btWalk esp_stack_ptr_is_sane memZero 4 frameDeep [0, 0, 0, 0]).reads,
      ∃ sp : Nat, esp_stack_ptr_is_sane sp = true ∧ (a = sp - 12 ∨ a = sp - 16) ∧
        0x3ffae000 ≤ a ∧ a < 0x3ffffff0) :=
  ⟨by simp +decide [btWalk, btLoop, btInit, frameDeep, memZero, esp_stack_ptr_is_sane,
      sub32, add32, XtExcFrame.pc, XtExcFrame.a0, XtExcFrame.a1],
   (stack_walk_reads_checked esp_stack_ptr_is_sane memZero 4 frameDeep [0, 0, 0, 0]).2.1⟩

/-! ## Invariant of the crash counters -/

/-- One classification without counter overflow keeps the early count below
the total count and leaves `stable_reached` clear, provided the store it
starts from has the early count below the total count and at 0 whenever
`stable_reached` is set. -/
theorem boot_keeps_counter_order (cpu0 cpu1 : RESET_REASON) (s : boot_data_t)
    (hw : bootWraps cpu0 s = false)
    (hle : s.crash_count_early ≤ s.crash_count_total) :
    (Boot.Boot cpu0 cpu1 s).boot_data.crash_count_early
      ≤ (Boot.Boot cpu0 cpu1 s).boot_data.crash_count_total ∧
    (Boot.Boot cpu0 cpu1 s).boot_data.stable_reached = false := by
  refine ⟨?_, rfl⟩
  by_cases hcpu : cpu0 = POWERON_RESET
  · simp [Boot.Boot, classify, hcpu, memset_zero]
  · cases hs : s.soft_reset
    · cases hf : s.firmware_update
      · cases hst : s.stable_reached
        · simp [bootWraps, hcpu, hs, hf, hst] at hw
          simp only [Boot.Boot, classify, hcpu, hs, hf, hst, incr32, if_false, Bool.not_false,
            if_true, Bool.false_eq_true]
          omega
        · simp [bootWraps, hcpu, hs, hf, hst] at hw
          simp only [Boot.Boot, classify, hcpu, hs, hf, hst, incr32, if_false, Bool.not_true,
            Bool.false_eq_true]
          omega
      · simp [Boot.Boot, classify, hcpu, hs, hf]
    · simp [Boot.Boot, classify, hcpu, hs]

/-- C19: in every store reachable from a power-on classification by boot
classifications that do not overflow a counter, `SetStable`, `SetSoftReset`,
`SetFirmwareUpdate` and crash captures, `crash_count_early ≤ crash_count_total`
holds and `crash_count_early` is 0 whenever `stable_reached` is set; hence a
boot of such a store that is classified as `Crash` leaves
`crash_count_early = 0`. -/
theorem reachable_counter_order (s : boot_data_t) (h : Reachable s) :
    s.crash_count_early ≤ s.crash_count_total ∧
    (s.stable_reached = true → s.crash_count_early = 0) ∧
    ∀ cpu0 cpu1 : RESET_REASON,
      (Boot.Boot cpu0 cpu1 s).MyBoot.m_bootreason = bootreason_t.BR_Crash →
      (Boot.Boot cpu0 cpu1 s).boot_data.crash_count_early = 0 := by
  have inv : s.crash_count_early ≤ s.crash_count_total ∧
      (s.stable_reached = true → s.crash_count_early = 0) := by
    induction h with
    | power_on cpu1 s => exact ⟨by simp [Boot.Boot, classify, memset_zero], by
        simp [Boot.Boot]⟩
    | boot cpu0 cpu1 s _ hw ih =>
      have hb := boot_keeps_counter_order cpu0 cpu1 s hw ih.1
      exact ⟨hb.1, fun hst => by rw [hb.2] at hst; exact Bool.noConfusion hst⟩
    | set_stable b s _ ih => exact ⟨Nat.zero_le _, fun _ => rfl⟩
    | set_soft_reset b s _ ih => exact ih
    | set_firmware_update b s _ ih => exact ih
    | crash sane mem M frame core_id is_abort s _ ih => exact ih
  refine ⟨inv.1, inv.2, fun cpu0 cpu1 hr => ?_⟩
  by_cases hcpu : cpu0 = POWERON_RESET
  · simp [Boot.Boot, classify, hcpu, memset_zero]
  · cases hs : s.soft_reset
    · cases hf : s.firmware_update
      · cases hst : s.stable_reached
        · simp [Boot.Boot, classify, hcpu, hs, hf, hst] at hr
        · have h0 := inv.2 hst
          simp [Boot.Boot, classify, hcpu, hs, hf, hst, h0]
      · simp [Boot.Boot, classify, hcpu, hs, hf]
    · simp [Boot.Boot, classify, hcpu, hs]

/-- C19 on a concrete history: power-on, two early crashes, the image
declares itself stable, then crashes again. -/
theorem reachable_counter_order_witness :
    (Boot.Boot SW_CPU_RESET SW_CPU_RESET
      (Boot.SetStable (Boot.Boot SW_CPU_RESET SW_CPU_RESET
        (Boot.Boot SW_CPU_RESET SW_CPU_RESET
          (Boot.Boot POWERON_RESET POWERON_RESET storeStale).boot_data).boot_data)).boot_data
      ).boot_data.crash_count_early = 0 ∧
    (Boot.Boot SW_CPU_RESET SW_CPU_RESET
      (Boot.Boot SW_CPU_RESET SW_CPU_RESET
        (Boot.Boot POWERON_RESET POWERON_RESET storeStale).boot_data).boot_data
      ).boot_data.crash_count_early
    ≤ (Boot.Boot SW_CPU_RESET SW_CPU_RESET
      (Boot.Boot SW_CPU_RESET SW_CPU_RESET
        (Boot.Boot POWERON_RESET POWERON_RESET storeStale).boot_data).boot_data
      ).boot_data.crash_count_total :=
  ⟨(reachable_counter_order _
      (Reachable.set_stable _ _
        (Reachable.boot SW_CPU_RESET SW_CPU_RESET _
          (Reachable.boot SW_CPU_RESET SW_CPU_RESET _
            (Reachable.power_on POWERON_RESET storeStale) (by decide)) (by decide)))).2.2
      SW_CPU_RESET SW_CPU_RESET (by decide),
   (reachable_counter_order _
      (Reachable.boot SW_CPU_RESET SW_CPU_RESET _
        (Reachable.boot SW_CPU_RESET SW_CPU_RESET _
          (Reachable.power_on POWERON_RESET storeStale) (by decide)) (by decide))).1⟩

/-! ## Reporters -/

/-- A digit character is neither a comma nor a space. -/
theorem digitChar_plain (d : Nat) : digitChar d ≠ ',' ∧ digitChar d ≠ ' ' := by
  rcases Nat.lt_or_ge d 16 with h | h
  · interval_cases d <;> decide
  · have : digitChar d = '0' := by
      unfold digitChar
      exact List.getD_eq_default _ _ (by simpa using h)
    rw [this]
    decide

/-- The decimal digits contain neither a comma nor a space. -/
theorem decimal_plain (n : Nat) : ∀ c ∈ (decimal n).data, c ≠ ',' ∧ c ≠ ' ' := by
  intro c hc
  unfold decimal at hc
  dsimp only at hc
  split_ifs at hc
  · have : c = '0' := by simpa using hc
    rw [this]; decide
  · obtain ⟨d, -, rfl⟩ := List.mem_map.mp hc
    exact digitChar_plain d

/-- The output of `%d` contains neither a comma nor a space. -/
theorem fmt_d_plain (v : Nat) : ∀ c ∈ (fmt_d v).data, c ≠ ',' ∧ c ≠ ' ' := by
  intro c hc
  unfold fmt_d at hc
  dsimp only at hc
  split_ifs at hc
  · rw [String.data_append] at hc
    rcases List.mem_append.mp hc with hc | hc
    · have : c = '-' := by simpa using hc
      rw [this]; decide
    · exact decimal_plain _ c hc
  · exact decimal_plain _ c hc

/-- The output of `0x%08lx` contains neither a comma nor a space. -/
theorem fmt_08lx_plain (v : Nat) : ∀ c ∈ (fmt_08lx v).data, c ≠ ',' ∧ c ≠ ' ' := by
  intro c hc
  unfold fmt_08lx at hc
  rcases List.mem_cons.mp hc with hc | hc
  · rw [hc]; decide
  · rcases List.mem_cons.mp hc with hc | hc
    · rw [hc]; decide
    · obtain ⟨d, -, rfl⟩ := List.mem_map.mp hc
      exact digitChar_plain _

/-- No boot reason name contains a comma. -/
theorem bootreason_name_plain (r : bootreason_t) :
    ∀ c ∈ (bootreason_name r).data, c ≠ ',' ∧ c ≠ ' ' := by
  cases r <;> decide

/-- No entry of the exception table contains a comma. -/
theorem edesc_plain : ∀ s ∈ edesc, ∀ c ∈ s.data, c ≠ ',' ∧ c ≠ ' ' := by
  decide
/-- The `int` read from a 32-bit register value, and its comparison with the
table size. -/
theorem exccause_cases (v : Nat) (hv : v < 2 ^ 32) :
    (v < 2 ^ 31 → int_of_u32 v = (v : Int)) ∧
    (2 ^ 31 ≤ v → int_of_u32 v = (v : Int) - 2 ^ 32) ∧
    (int_lt_size (int_of_u32 v) NUM_EDESCS = true ↔ v < 40) := by
  have hmod : v % 2 ^ 32 = v := Nat.mod_eq_of_lt hv
  have hn : NUM_EDESCS = 40 := rfl
  refine ⟨fun h => ?_, fun h => ?_, ?_⟩
  · unfold int_of_u32
    rw [hmod, if_pos h]
  · have hge : ¬ (v < 2 ^ 31) := by omega
    unfold int_of_u32
    rw [hmod, if_neg hge]
  · unfold int_lt_size int_of_u32
    rw [hmod, hn, decide_eq_true_iff]
    split_ifs with h <;> omega

/-- The crash type named for the register value `v`. -/
theorem exceptionName_cases (v : Nat) (hv : v < 2 ^ 32) :
    (v < 40 → exceptionName v = edesc[v]?) ∧ (40 ≤ v → exceptionName v = some "Unknown") := by
  obtain ⟨h1, -, h3⟩ := exccause_cases v hv
  refine ⟨fun h => ?_, fun h => ?_⟩
  · have hlt := h3.mpr h
    have hi := h1 (by omega)
    unfold exceptionName
    dsimp only
    rw [if_pos hlt, hi]
    simp [edescAt]
  · have hlt : int_lt_size (int_of_u32 v) NUM_EDESCS = false := by
      rw [Bool.eq_false_iff]
      intro hc
      have := h3.mp hc
      omega
    unfold exceptionName
    dsimp only
    rw [hlt]
    rfl

/-- The crash type named by the reporters contains neither a comma nor a
space. -/
theorem exceptionName_plain (v : Nat) :
    ∀ c ∈ ((exceptionName v).getD "").data, c ≠ ',' ∧ c ≠ ' ' := by
  unfold exceptionName
  dsimp only
  split_ifs with h
  · unfold edescAt
    split_ifs with h0
    · cases hs : edesc[(int_of_u32 v).toNat]? with
      | none => intro c hc; simp at hc
      | some s =>
        have hmem : s ∈ edesc := List.getElem?_mem hs
        simpa using edesc_plain s hmem
    · intro c hc; simp at hc
  · decide

/-- Appending addresses to a buffer is appending them to the empty buffer and
concatenating. -/
theorem foldl_addresses_split {α : Type} (g : α → Nat) (l : List α) :
    ∀ buf : String,
      l.foldl (fun b x => b ++ fmt_08lx (g x) ++ String.mk [' ']) buf
        = buf ++ l.foldl (fun b x => b ++ fmt_08lx (g x) ++ String.mk [' ']) (String.mk []) := by
  induction l with
  | nil => intro buf; apply String.ext; simp
  | cons x l ih =>
    intro buf
    rw [List.foldl_cons, List.foldl_cons, ih, ih (String.mk [] ++ fmt_08lx (g x) ++ String.mk [' '])]
    apply String.ext
    simp [String.data_append, List.append_assoc]

/-- The addresses appended to a buffer add no comma, and one space each. -/
theorem foldl_addresses_count {α : Type} (g : α → Nat) (l : List α) :
    ∀ buf : String,
      (l.foldl (fun b x => b ++ fmt_08lx (g x) ++ String.mk [' ']) buf).data.count ','
        = buf.data.count ',' ∧
      (l.foldl (fun b x => b ++ fmt_08lx (g x) ++ String.mk [' ']) buf).data.count ' '
        = buf.data.count ' ' + l.length := by
  induction l with
  | nil => intro buf; simp
  | cons x l ih =>
    intro buf
    have hc : (fmt_08lx (g x)).data.count ',' = 0 :=
      List.count_eq_zero.mpr (fun h => (fmt_08lx_plain (g x) _ h).1 rfl)
    have hs : (fmt_08lx (g x)).data.count ' ' = 0 :=
      List.count_eq_zero.mpr (fun h => (fmt_08lx_plain (g x) _ h).2 rfl)
    rw [List.foldl_cons]
    obtain ⟨h1, h2⟩ := ih (buf ++ fmt_08lx (g x) ++ String.mk [' '])
    rw [h1, h2]
    simp only [String.data_append, List.count_append, hc, hs, List.length_cons]
    constructor
    · simp
    · simp; omega
/-- The record built by `Boot::NotifyDebugCrash` is the list of the 14 fields
joined by commas. -/
theorem notify_record_eq (version : String) (M : Nat) (st : State)
    (hcrash : 0 < st.boot_data.crash_count_total) :
    Boot.NotifyDebugCrash version M st
      = some (String.intercalate "," (recordFields version M st)) := by
  have h1 : "*-OVM-DebugCrash,0,2592000,"
      = "*-OVM-DebugCrash" ++ "," ++ "0" ++ "," ++ "2592000" ++ "," := by decide
  have h2 : ",abort()," = "," ++ "abort()" ++ "," := by decide
  have hb := foldl_addresses_split (fun pc : Nat => pc) (btEntries M st.boot_data.crash_data.bt)
  have hr := foldl_addresses_split (fun i : Nat => st.boot_data.crash_data.reg.getD i 0)
    (List.range 24)
  unfold Boot.NotifyDebugCrash
  rw [if_pos (by simpa [Boot.GetCrashCount] using hcrash)]
  dsimp only
  rw [Option.some.injEq]
  unfold appendBacktrace
  rw [hb]
  cases hab : st.boot_data.crash_data.is_abort
  · simp only [Bool.false_eq_true, if_false]
    unfold appendRegisters
    rw [hr, h1]
    apply String.ext
    simp [recordFields, registerField, appendRegisters, appendBacktrace, hab,
      String.intercalate, String.intercalate.go, String.data_append, List.append_assoc]
  · simp only [if_true]
    rw [h1, h2]
    apply String.ext
    simp [recordFields, registerField, appendBacktrace, hab,
      String.intercalate, String.intercalate.go, String.data_append, List.append_assoc]

/-- The number of commas in the joined fields: 13 separators plus the commas
of the firmware version. -/
theorem record_commas (version : String) (M : Nat) (st : State) :
    (String.intercalate "," (recordFields version M st)).data.count ','
      = 13 + version.data.count ',' := by
  have z : ∀ s : String, (∀ c ∈ s.data, c ≠ ',' ∧ c ≠ ' ') → s.data.count ',' = 0 :=
    fun s h => List.count_eq_zero.mpr (fun hc => (h _ hc).1 rfl)
  have hbt := (foldl_addresses_count (fun pc : Nat => pc)
    (btEntries M st.boot_data.crash_data.bt) (String.mk [])).1
  have hrg := (foldl_addresses_count (fun i : Nat => st.boot_data.crash_data.reg.getD i 0)
    (List.range 24) (String.mk [])).1
  have hreg : (registerField st).data.count ',' = 0 := by
    unfold registerField appendRegisters
    split_ifs
    · rfl
    · rw [hrg]; rfl
  have hback : (appendBacktrace M st.boot_data.crash_data.bt (String.mk [])).data.count ','
      = 0 := by
    unfold appendBacktrace
    rw [hbt]; rfl
  have htype : (if st.boot_data.crash_data.is_abort then "abort()"
      else (exceptionName (st.boot_data.crash_data.reg.getD 19 0)).getD "").data.count ','
      = 0 := by
    split_ifs
    · decide
    · exact z _ (exceptionName_plain _)
  have hl1 : "*-OVM-DebugCrash".data.count ',' = 0 := by decide
  have hl2 : "0".data.count ',' = 0 := by decide
  have hl3 : "2592000".data.count ',' = 0 := by decide
  have hl4 : ",".data.count ',' = 1 := by decide
  simp only [recordFields, String.intercalate, String.intercalate.go, String.data_append,
    List.count_append, hreg, hback, htype, hl1, hl2, hl3, hl4,
    z _ (fmt_d_plain _), z _ (bootreason_name_plain _), Boot.GetBootReasonName]
  omega
/-- C14 as stated fails for a firmware version that contains a comma: the
record of a crashed state with version `3.1,beta` has 14 commas, hence 15
comma-separated fields. -/
theorem notify_record_counterexample :
    0 < stateCrashed.boot_data.crash_count_total ∧
    (Boot.NotifyDebugCrash "3.1,beta" 4 stateCrashed).map (fun r => r.data.count ',')
      = some 14 := by
  refine ⟨by decide, ?_⟩
  rw [notify_record_eq "3.1,beta" 4 stateCrashed (by decide), Option.map_some', record_commas]
  decide

/-- C14 (amended): for every store with a non-zero crash count and every
firmware version that contains no comma, the record built by
`Boot::NotifyDebugCrash` is the 14 fields of `recordFields` (record type,
protocol version, retention seconds, firmware version, boot count, boot reason
name, reset reasons of core 0 and 1, total and early crash count, crash type,
crash core id, register dump, backtrace) joined by exactly 13 commas, no field
containing a comma. The register-dump field is empty exactly when `is_abort`
is set and otherwise holds 24 values each followed by a space; the backtrace
field holds one address followed by a space per backtrace entry read. -/
theorem notify_record_fields (version : String) (M : Nat) (st : State)
    (hcrash : 0 < st.boot_data.crash_count_total) (hver : ',' ∉ version.data) :
    Boot.NotifyDebugCrash version M st
      = some (String.intercalate "," (recordFields version M st)) ∧
    (recordFields version M st).length = 14 ∧
    (String.intercalate "," (recordFields version M st)).data.count ',' = 13 ∧
    (∀ f ∈ recordFields version M st, ',' ∉ f.data) ∧
    (recordFields version M st).getD 12 "" = registerField st ∧
    (registerField st = "" ↔ st.boot_data.crash_data.is_abort = true) ∧
    (st.boot_data.crash_data.is_abort = false → (registerField st).data.count ' ' = 24) ∧
    ((recordFields version M st).getD 13 "").data.count ' '
      = (btEntries M st.boot_data.crash_data.bt).length := by
  have hrg := foldl_addresses_count (fun i : Nat => st.boot_data.crash_data.reg.getD i 0)
    (List.range 24) (String.mk [])
  have hbt := foldl_addresses_count (fun pc : Nat => pc)
    (btEntries M st.boot_data.crash_data.bt) (String.mk [])
  have hspaces : st.boot_data.crash_data.is_abort = false →
      (registerField st).data.count ' ' = 24 := by
    intro hab
    unfold registerField appendRegisters
    rw [hab, if_neg (by decide), hrg.2]
    simp
  have hcomma : ∀ f ∈ recordFields version M st, f.data.count ',' = 0 := by
    intro f hf
    simp only [recordFields, List.mem_cons, List.mem_singleton, List.not_mem_nil, or_false] at hf
    have z : ∀ s : String, (∀ c ∈ s.data, c ≠ ',' ∧ c ≠ ' ') → s.data.count ',' = 0 :=
      fun s h => List.count_eq_zero.mpr (fun hc => (h _ hc).1 rfl)
    rcases hf with rfl | rfl | rfl | rfl | rfl | rfl | rfl | rfl | rfl | rfl | rfl | rfl | rfl | rfl
    · decide
    · decide
    · decide
    · exact List.count_eq_zero.mpr hver
    · exact z _ (fmt_d_plain _)
    · exact z _ (bootreason_name_plain _)
    · exact z _ (fmt_d_plain _)
    · exact z _ (fmt_d_plain _)
    · exact z _ (fmt_d_plain _)
    · exact z _ (fmt_d_plain _)
    · split_ifs
      · decide
      · exact z _ (exceptionName_plain _)
    · exact z _ (fmt_d_plain _)
    · unfold registerField appendRegisters
      split_ifs
      · rfl
      · rw [hrg.1]; rfl
    · unfold appendBacktrace
      rw [hbt.1]; rfl
  refine ⟨notify_record_eq version M st hcrash, rfl, ?_,
    fun f hf => List.count_eq_zero.mp (hcomma f hf), rfl, ⟨fun h => ?_, fun h => ?_⟩,
    hspaces, ?_⟩
  · rw [record_commas, List.count_eq_zero.mpr hver]
  · by_contra hab
    have h24 := hspaces (by simpa using hab)
    rw [h] at h24
    simp at h24
  · simp [registerField, h]
  · show (appendBacktrace M st.boot_data.crash_data.bt (String.mk [])).data.count ' ' = _
    unfold appendBacktrace
    rw [hbt.2]
    simp

/-- C14 (amended) at a crashed state with firmware version `3.1.0`. -/
theorem notify_record_fields_witness :
    (Boot.NotifyDebugCrash "3.1.0" 4 stateCrashed).map (fun r => r.data.count ',')
      = some 13 ∧
    (registerField stateCrashed).data.count ' ' = 24 :=
  have h := notify_record_fields "3.1.0" 4 stateCrashed (by decide) (by decide)
  ⟨by rw [h.1, Option.map_some', h.2.2.1], h.2.2.2.2.2.2.1 (by decide)⟩

/-- C15: for every 32-bit value `v` of snapshot register 19 of a crash that is
not an abort, both reporters name the crash with entry `v` of the 40-entry
table `edesc` when `v < 40` and with `Unknown` otherwise, also when bit 31 of
`v` is set and `exccause` is negative as an `int`; the table is subscripted
only when `0 ≤ exccause < 40`. For a store with a non-zero crash count,
`boot_status` prints that name in its crash line and `Boot::NotifyDebugCrash`
puts it in the crash-type position of the record it builds. -/
theorem exception_name_in_table (v : Nat) (hv : v < 2 ^ 32) :
    NUM_EDESCS = 40 ∧
    (v < 40 → exceptionName v = edesc[v]? ∧ ∃ s, s ∈ edesc ∧ exceptionName v = some s) ∧
    (40 ≤ v → exceptionName v = some "Unknown") ∧
    (2 ^ 31 ≤ v → int_of_u32 v < 0 ∧ exceptionName v = some "Unknown") ∧
    (int_lt_size (int_of_u32 v) NUM_EDESCS = true →
      0 ≤ int_of_u32 v ∧ int_of_u32 v < 40 ∧ (edescAt (int_of_u32 v)).isSome = true) ∧
    (∀ st : State, 0 < st.boot_data.crash_count_total →
      st.boot_data.crash_data.is_abort = false →
      st.boot_data.crash_data.reg.getD 19 0 = v →
      boot_status_last_crash st
        = some ("\nLast crash: " ++ (if v < 40 then edesc.getD v "" else "Unknown")
            ++ " exception on core " ++ fmt_d st.boot_data.crash_data.core_id ++ "\n") ∧
      ∀ (version : String) (M : Nat),
        Boot.NotifyDebugCrash version M st
          = some ("*-OVM-DebugCrash,0,2592000," ++ version
              ++ "," ++ fmt_d st.boot_data.boot_count
              ++ "," ++ Boot.GetBootReasonName st
              ++ "," ++ fmt_d st.boot_data.bootreason_cpu0
              ++ "," ++ fmt_d st.boot_data.bootreason_cpu1
              ++ "," ++ fmt_d st.boot_data.crash_count_total
              ++ "," ++ fmt_d st.MyBoot.m_crash_count_early
              ++ "," ++ (if v < 40 then edesc.getD v "" else "Unknown")
              ++ "," ++ fmt_d st.boot_data.crash_data.core_id
              ++ "," ++ appendRegisters st.boot_data.crash_data.reg (String.mk [])
              ++ "," ++ appendBacktrace M st.boot_data.crash_data.bt (String.mk []))) := by
  obtain ⟨h1, h2, h3⟩ := exccause_cases v hv
  obtain ⟨hin, hout⟩ := exceptionName_cases v hv
  have hlabel : (exceptionName v).getD "" = if v < 40 then edesc.getD v "" else "Unknown" := by
    split_ifs with h40
    · rw [(hin h40), List.getD_eq_getElem?_getD]
    · rw [hout (by omega)]
      rfl
  refine ⟨rfl, fun h => ⟨hin h, ?_⟩, hout, fun h => ⟨?_, hout (by omega)⟩, fun h => ?_,
    fun st hcrash hab hreg => ⟨?_, fun version M => ?_⟩⟩
  · have hlen : v < edesc.length := h
    exact ⟨edesc[v], List.getElem_mem _, by rw [hin h, List.getElem?_eq_getElem hlen]⟩
  · rw [h2 h]; omega
  · have hv40 := h3.mp h
    have hi := h1 (by omega)
    have hlen : v < edesc.length := hv40
    refine ⟨by rw [hi]; omega, by rw [hi]; omega, ?_⟩
    rw [hi]
    simp [edescAt, List.getElem?_eq_getElem hlen]
  · unfold boot_status_last_crash
    rw [if_pos (by simpa [Boot.GetCrashCount] using hcrash)]
    dsimp only
    rw [hab, if_neg (by decide), hreg, hlabel]
  · have hb := foldl_addresses_split (fun pc : Nat => pc)
      (btEntries M st.boot_data.crash_data.bt)
    have hr := foldl_addresses_split (fun i : Nat => st.boot_data.crash_data.reg.getD i 0)
      (List.range 24)
    unfold Boot.NotifyDebugCrash
    rw [if_pos (by simpa [Boot.GetCrashCount] using hcrash)]
    dsimp only
    rw [Option.some.injEq, hab, if_neg (by decide), hreg, hlabel]
    unfold appendBacktrace appendRegisters
    rw [hb, hr]
    apply String.ext
    simp only [Boot.GetCrashCount, Boot.GetEarlyCrashCount, String.data_append,
      List.append_assoc, List.nil_append]

/-- C15 at concrete inputs: the register values 40 and `0xffffffff` are named
`Unknown`, and for a crashed state with cause 28 both reporters print
`LoadProhibited`. -/
theorem exception_name_in_table_witness :
    exceptionName 40 = some "Unknown" ∧
    exceptionName 0xffffffff = some "Unknown" ∧
    boot_status_last_crash stateCrashed
      = some "\nLast crash: LoadProhibited exception on core 1\n" ∧
    Boot.NotifyDebugCrash "3.1.0" 4 stateCrashed
      = some ("*-OVM-DebugCrash,0,2592000,3.1.0,3,Crash,12,12,1,0,LoadProhibited,1,"
          ++ appendRegisters stateCrashed.boot_data.crash_data.reg (String.mk [])
          ++ "," ++ appendBacktrace 4 stateCrashed.boot_data.crash_data.bt (String.mk [])) :=
  ⟨(exception_name_in_table 40 (by decide)).2.2.1 (by decide),
   ((exception_name_in_table 0xffffffff (by decide)).2.2.2.1 (by decide)).2,
   ((exception_name_in_table 28 (by decide)).2.2.2.2.2 stateCrashed (by decide) (by decide)
      (by decide)).1,
   ((exception_name_in_table 28 (by decide)).2.2.2.2.2 stateCrashed (by decide) (by decide)
      (by decide)).2 "3.1.0" 4⟩

end OvmsBoot
